import Mathlib

/-!
Verification development for the jac test-data generation scripts
(scripts/generate_test_data.py, scripts/generate_provenance.py,
scripts/validate_provenance.py).

Shallow embedding conventions:
- Python str values are lists of Unicode code points (PyStr := List Nat),
  since Python strings may contain lone surrogates, which Lean Char cannot.
- Python dicts appearing in generated data are association lists
  (List (String times JValue)); all keys produced by the scripts are distinct,
  so plain append is a faithful model of dict insertion.
- The global random module state is an explicit PyState threaded through every
  generator, holding an abstract entropy stream (Nat to Nat) and an index.
  random.randint(a, b) maps the next stream value into the interval by
  remainder; random.random() yields (k mod 10)/10: every probability threshold
  the scripts ever compare a random() draw against (0.3, 0.5, 0.7) is a
  multiple of 1/10, so branching behaviour is unchanged by this granularity.
- datetime.now() and time.time() readings are a second stream in PyState
  (clock), consumed one reading per call; datetime values are modelled by
  their epoch seconds (an Int), and isoformat by that number (isoformat is a
  strictly monotone injection on datetimes, which is all the claims use).
- Python ints are Int; floats are exact rationals.
-/

set_option maxRecDepth 8000

/-- Python string: a sequence of Unicode code points (0 to 0x10FFFF, lone
surrogates permitted, as in CPython). -/
abbrev PyStr := List Nat

/-- JSON-like values produced by the generator: the tagged union over
string / integer / float / boolean / null / object / array. -/
inductive JValue where
  | str (s : PyStr)
  | int (n : Int)
  | float (q : ℚ)
  | bool (b : Bool)
  | null
  | obj (fields : List (String × JValue))
  | arr (elems : List JValue)

/-- A top-level record: a Python dict with string keys. -/
abbrev Record := List (String × JValue)

mutual

/-- Boolean equality on JValue (the nested inductive prevents deriving). -/
def jbeq : JValue → JValue → Bool
  | .str a, .str b => decide (a = b)
  | .int a, .int b => decide (a = b)
  | .float a, .float b => decide (a = b)
  | .bool a, .bool b => decide (a = b)
  | .null, .null => true
  | .obj a, .obj b => jbeqPairs a b
  | .arr a, .arr b => jbeqList a b
  | _, _ => false

/-- Pointwise Boolean equality on value lists. -/
def jbeqList : List JValue → List JValue → Bool
  | [], [] => true
  | x :: xs, y :: ys => jbeq x y && jbeqList xs ys
  | _, _ => false

/-- Pointwise Boolean equality on field lists. -/
def jbeqPairs : List (String × JValue) → List (String × JValue) → Bool
  | [], [] => true
  | p :: xs, q :: ys => decide (p.1 = q.1) && jbeq p.2 q.2 && jbeqPairs xs ys
  | _, _ => false

end

theorem jbeqList_iff (xs ys : List JValue)
    (h : ∀ x ∈ xs, ∀ y, jbeq x y = true ↔ x = y) :
    jbeqList xs ys = true ↔ xs = ys := by
  induction xs generalizing ys with
  | nil => cases ys <;> simp [jbeqList]
  | cons x xs ih =>
    cases ys with
    | nil => simp [jbeqList]
    | cons y ys =>
      simp only [jbeqList, Bool.and_eq_true, List.cons.injEq]
      rw [h x (by simp) y, ih ys (fun a ha b => h a (List.mem_cons_of_mem _ ha) b)]

theorem jbeqPairs_iff (xs ys : List (String × JValue))
    (h : ∀ p ∈ xs, ∀ y, jbeq p.2 y = true ↔ p.2 = y) :
    jbeqPairs xs ys = true ↔ xs = ys := by
  induction xs generalizing ys with
  | nil => cases ys <;> simp [jbeqPairs]
  | cons p xs ih =>
    cases ys with
    | nil => simp [jbeqPairs]
    | cons q ys =>
      simp only [jbeqPairs, Bool.and_eq_true, decide_eq_true_eq, List.cons.injEq]
      rw [h p (by simp) q.2, ih ys (fun a ha b => h a (List.mem_cons_of_mem _ ha) b),
        Prod.ext_iff, and_assoc]

theorem jbeq_iff_of_size :
    ∀ (n : Nat) (a b : JValue), sizeOf a ≤ n → (jbeq a b = true ↔ a = b) := by
  intro n
  induction n with
  | zero =>
    intro a b h
    cases a <;> simp_arith at h
  | succ n ih =>
    intro a b h
    cases a with
    | str s => cases b <;> simp [jbeq]
    | int m => cases b <;> simp [jbeq]
    | float q => cases b <;> simp [jbeq]
    | bool v => cases b <;> simp [jbeq]
    | null => cases b <;> simp [jbeq]
    | obj fs =>
      cases b with
      | obj gs =>
        simp only [jbeq, JValue.obj.injEq]
        refine jbeqPairs_iff fs gs (fun p hp y => ih p.2 y ?_)
        have h1 : sizeOf p < sizeOf fs := List.sizeOf_lt_of_mem hp
        have h2 : sizeOf p.2 ≤ sizeOf p := by
          obtain ⟨k, v⟩ := p
          simp_arith
        simp_arith at h
        omega
      | str _ => simp [jbeq]
      | int _ => simp [jbeq]
      | float _ => simp [jbeq]
      | bool _ => simp [jbeq]
      | null => simp [jbeq]
      | arr _ => simp [jbeq]
    | arr xs =>
      cases b with
      | arr ys =>
        simp only [jbeq, JValue.arr.injEq]
        refine jbeqList_iff xs ys (fun x hx y => ih x y ?_)
        have h1 : sizeOf x < sizeOf xs := List.sizeOf_lt_of_mem hx
        simp_arith at h
        omega
      | str _ => simp [jbeq]
      | int _ => simp [jbeq]
      | float _ => simp [jbeq]
      | bool _ => simp [jbeq]
      | null => simp [jbeq]
      | obj _ => simp [jbeq]

instance : DecidableEq JValue := fun a b =>
  decidable_of_iff (jbeq a b = true) (jbeq_iff_of_size (sizeOf a) a b le_rfl)

/-- Convert a Lean string literal to a Python string value. -/
def pys (s : String) : PyStr := s.toList.map Char.toNat

/-- The ambient interpreter state: the seeded random stream (initialized by
random.seed(seed) in TestDataGenerator.__init__) and the wall clock consumed
by datetime.now() / time.time(). -/
structure PyState where
  rand : Nat → Nat
  ridx : Nat
  clock : Nat → Int
  cidx : Nat

/-- Draw the next raw value from the seeded random stream. -/
def nextNat (s : PyState) : Nat × PyState :=
  (s.rand s.ridx, { s with ridx := s.ridx + 1 })

/-- random.randint(a, b): uniform integer in the inclusive range [a, b]. -/
def randint (a b : Int) (s : PyState) : Int × PyState :=
  let (n, s1) := nextNat s
  (a + ((n % (b - a + 1).toNat : Nat) : Int), s1)

/-- random.random(): uniform draw in [0, 1).  Modelled at denominator 10
(all thresholds compared against in the source are tenths). -/
def randomUnit (s : PyState) : ℚ × PyState :=
  let (n, s1) := nextNat s
  (((n % 10 : Nat) : ℚ) / 10, s1)

/-- random.uniform(a, b): a + (b - a) * random(). -/
def uniformQ (a b : ℚ) (s : PyState) : ℚ × PyState :=
  let (u, s1) := randomUnit s
  (a + (b - a) * u, s1)

/-- random.choice(l): uniform element of the (always nonempty at call sites)
list l. -/
def choice [Inhabited α] (l : List α) (s : PyState) : α × PyState :=
  let (n, s1) := nextNat s
  (l.getD (n % l.length) default, s1)

/-- datetime.now() (and time.time()): consume one wall-clock reading. -/
def now (s : PyState) : Int × PyState :=
  (s.clock s.cidx, { s with cidx := s.cidx + 1 })

/-- FIELD_TYPES from generate_test_data.py. -/
def FIELD_TYPES : List String :=
  ["string", "integer", "float", "boolean", "null", "object", "array"]

/-- STRING_LENGTHS from generate_test_data.py. -/
def STRING_LENGTHS : List Int := [1, 10, 100, 1000, 10000, 100000]

/-- ARRAY_SIZES from generate_test_data.py. -/
def ARRAY_SIZES : List Int := [1, 10, 100, 1000, 10000]

/-- string.ascii_letters as code points (lowercase a-z then uppercase A-Z). -/
def ascii_letters : List Nat := List.range' 97 26 ++ List.range' 65 26

/-- string.digits as code points. -/
def asciiDigits : List Nat := List.range' 48 10

/-- string.punctuation as code points (33-47, 58-64, 91-96, 123-126). -/
def asciiPunctuation : List Nat :=
  List.range' 33 15 ++ List.range' 58 7 ++ List.range' 91 6 ++ List.range' 123 4

/-- The palette string.ascii_letters + string.digits + string.punctuation
used by TestDataGenerator.generate_string. -/
def stringPalette : List Nat := ascii_letters ++ asciiDigits ++ asciiPunctuation

/-- random.choices(l, k=n): n independent uniform draws from l. -/
def pyChoices [Inhabited α] (l : List α) : Nat → PyState → List α × PyState
  | 0, s => ([], s)
  | k + 1, s =>
    let (c, s1) := choice l s
    let (rest, s2) := pyChoices l k s1
    (c :: rest, s2)

/-- TestDataGenerator.generate_string: empty for length 0, else length
characters drawn from the fixed ASCII palette. -/
def generate_string (length : Int) (s : PyState) : PyStr × PyState :=
  if length = 0 then ([], s)
  else pyChoices stringPalette length.toNat s

/-- One character of TestDataGenerator.generate_unicode_string: the branch
cascade from the source.  Each elif re-draws random.random() (lazily, as in
Python), then draws a uniform code point in the selected range. -/
def genUnicodeChar (s : PyState) : Nat × PyState :=
  let (u1, s1) := randomUnit s
  if u1 < 3/10 then
    let (c, s2) := randint 32 126 s1
    (c.toNat, s2)
  else
    let (u2, s2) := randomUnit s1
    if u2 < 5/10 then
      let (c, s3) := randint 128 255 s2
      (c.toNat, s3)
    else
      let (u3, s3) := randomUnit s2
      if u3 < 7/10 then
        let (c, s4) := randint 256 65535 s3
        (c.toNat, s4)
      else
        let (c, s4) := randint 65536 1114111 s3
        (c.toNat, s4)

/-- The character loop of generate_unicode_string. -/
def genUnicodeChars : Nat → PyState → PyStr × PyState
  | 0, s => ([], s)
  | k + 1, s =>
    let (c, s1) := genUnicodeChar s
    let (rest, s2) := genUnicodeChars k s1
    (c :: rest, s2)

/-- TestDataGenerator.generate_unicode_string. -/
def generate_unicode_string (length : Int) (s : PyState) : PyStr × PyState :=
  if length = 0 then ([], s)
  else genUnicodeChars length.toNat s

/-- TestDataGenerator.generate_integer (all call sites use the default range
-1000000 to 1000000). -/
def generate_integer (min_val max_val : Int) (s : PyState) : Int × PyState :=
  randint min_val max_val s

/-- TestDataGenerator.generate_float (all call sites use the default range). -/
def generate_float (min_val max_val : ℚ) (s : PyState) : ℚ × PyState :=
  uniformQ min_val max_val s

/-- TestDataGenerator.generate_boolean: random.choice([True, False]). -/
def generate_boolean (s : PyState) : Bool × PyState :=
  choice [true, false] s

/-- TestDataGenerator.generate_null: always None. -/
def generate_null : JValue := JValue.null

/-- Termination rank for the array element type: generating an element of an
"object"-typed array recurses into generate_object (inner depth at most 5),
and an "array"-typed array recurses into a string-typed array. -/
def arank : String → Nat
  | "object" => 20
  | "array" => 2
  | _ => 1

theorem randint_one_five_le (s : PyState) : ((randint 1 5 s).1).toNat ≤ 5 := by
  have h5 : ((5 : Int) - 1 + 1).toNat = 5 := rfl
  simp only [randint, nextNat, h5]
  omega

mutual

/-- TestDataGenerator.generate_array: empty for size 0, else size elements of
the requested element type (an unknown type appends nothing). -/
def generate_array (size : Int) (field_type : String) (s : PyState) :
    List JValue × PyState :=
  if size = 0 then ([], s)
  else genArrayElems size.toNat field_type s
termination_by (arank field_type, size.toNat + 1)
decreasing_by
  exact Prod.Lex.right _ (Nat.lt_succ_self _)

/-- The element loop of generate_array (Python: for _ in range(size)). -/
def genArrayElems (n : Nat) (field_type : String) (s : PyState) :
    List JValue × PyState :=
  match n with
  | 0 => ([], s)
  | m + 1 =>
    let (elt, s1) :=
      if field_type = "string" then
        let (len, sa) := choice STRING_LENGTHS s
        let (v, sb) := generate_string len sa
        ([JValue.str v], sb)
      else if field_type = "integer" then
        let (v, sa) := generate_integer (-1000000) 1000000 s
        ([JValue.int v], sa)
      else if field_type = "float" then
        let (v, sa) := generate_float (-1000000) 1000000 s
        ([JValue.float v], sa)
      else if field_type = "boolean" then
        let (v, sa) := generate_boolean s
        ([JValue.bool v], sa)
      else if field_type = "null" then
        ([generate_null], s)
      else if h : field_type = "object" then
        let dr := randint 1 5 s
        let (v, sb) := generate_object dr.1 dr.2
        ([JValue.obj v], sb)
      else if h : field_type = "array" then
        let (sz, sa) := randint 1 10 s
        let (v, sb) := generate_array sz "string" sa
        ([JValue.arr v], sb)
      else ([], s)
    let (rest, s2) := genArrayElems m field_type s1
    (elt ++ rest, s2)
termination_by (arank field_type, n)
decreasing_by
  · subst h
    apply Prod.Lex.left
    have := randint_one_five_le s
    rw [show arank "object" = 20 from rfl]
    omega
  · subst h
    apply Prod.Lex.left
    decide
  · exact Prod.Lex.right _ (Nat.lt_succ_self _)

/-- TestDataGenerator.generate_object: empty object for depth at most 0, else
a random field count 1-10 of randomly typed fields. -/
def generate_object (depth : Int) (s : PyState) : Record × PyState :=
  if depth ≤ 0 then ([], s)
  else
    let (fc, s1) := randint 1 10 s
    genObjectFields fc.toNat 0 depth s1
termination_by (2 * depth.toNat + 3, 0)
decreasing_by
  apply Prod.Lex.left
  omega

/-- The field loop of generate_object.  A field typed "object" at remaining
depth at most 1 matches no branch and is skipped, as is any unknown type. -/
def genObjectFields (k i : Nat) (depth : Int) (s : PyState) :
    Record × PyState :=
  match k with
  | 0 => ([], s)
  | m + 1 =>
    let field_name := "field_" ++ toString i
    let (ft, s1) := choice FIELD_TYPES s
    let (fld, s2) :=
      if ft = "string" then
        let (len, sa) := choice STRING_LENGTHS s1
        let (v, sb) := generate_string len sa
        ([(field_name, JValue.str v)], sb)
      else if ft = "integer" then
        let (v, sa) := generate_integer (-1000000) 1000000 s1
        ([(field_name, JValue.int v)], sa)
      else if ft = "float" then
        let (v, sa) := generate_float (-1000000) 1000000 s1
        ([(field_name, JValue.float v)], sa)
      else if ft = "boolean" then
        let (v, sa) := generate_boolean s1
        ([(field_name, JValue.bool v)], sa)
      else if ft = "null" then
        ([(field_name, generate_null)], s1)
      else if h : ft = "object" ∧ 1 < depth then
        let (v, sa) := generate_object (depth - 1) s1
        ([(field_name, JValue.obj v)], sa)
      else if ft = "array" then
        let (sz, sa) := choice ARRAY_SIZES s1
        let (v, sb) := generate_array sz "string" sa
        ([(field_name, JValue.arr v)], sb)
      else ([], s1)
    let (rest, s3) := genObjectFields m (i + 1) depth s2
    (fld ++ rest, s3)
termination_by (2 * depth.toNat + 2, k)
decreasing_by
  · obtain ⟨hft, hd⟩ := h
    apply Prod.Lex.left
    omega
  · apply Prod.Lex.left
    rw [show arank "string" = 1 from rfl]
    omega
  · exact Prod.Lex.right _ (Nat.lt_succ_self _)

end

/-- The field loop of TestDataGenerator.generate_record (for i, field_type in
enumerate(field_types)).  A type matching no branch adds no field. -/
def genRecordFields : List String → Nat → PyState → Record × PyState
  | [], _, s => ([], s)
  | ft :: rest, i, s =>
    let field_name := "field_" ++ toString i
    let (fld, s2) :=
      if ft = "string" then
        let (len, sa) := choice STRING_LENGTHS s
        let (v, sb) := generate_string len sa
        ([(field_name, JValue.str v)], sb)
      else if ft = "integer" then
        let (v, sa) := generate_integer (-1000000) 1000000 s
        ([(field_name, JValue.int v)], sa)
      else if ft = "float" then
        let (v, sa) := generate_float (-1000000) 1000000 s
        ([(field_name, JValue.float v)], sa)
      else if ft = "boolean" then
        let (v, sa) := generate_boolean s
        ([(field_name, JValue.bool v)], sa)
      else if ft = "null" then
        ([(field_name, generate_null)], s)
      else if ft = "object" then
        let (d, sa) := randint 1 3 s
        let (v, sb) := generate_object d sa
        ([(field_name, JValue.obj v)], sb)
      else if ft = "array" then
        let (sz, sa) := choice ARRAY_SIZES s
        let (v, sb) := generate_array sz "string" sa
        ([(field_name, JValue.arr v)], sb)
      else ([], s)
    let (rest2, s3) := genRecordFields rest (i + 1) s2
    (fld ++ rest2, s3)

/-- TestDataGenerator.generate_record. -/
def generate_record (field_types : List String) (s : PyState) :
    Record × PyState :=
  genRecordFields field_types 0 s

/-- The record loop of TestDataGenerator.generate_time_series_data; the
current time advances by randint(1, 3600) seconds after each record. -/
def goTimeSeries : Nat → Int → PyState → List Record × PyState
  | 0, _, s => ([], s)
  | n + 1, current_time, s =>
    let (v, s1) := generate_float (-1000000) 1000000 s
    let (cat, s2) := choice [pys "A", pys "B", pys "C", pys "D"] s1
    let (lvl, s3) := choice [pys "DEBUG", pys "INFO", pys "WARN", pys "ERROR"] s2
    let (mlen, s4) := randint 10 100 s3
    let (msg, s5) := generate_string mlen s4
    let record : Record :=
      [("timestamp", JValue.int current_time),
       ("value", JValue.float v),
       ("category", JValue.str cat),
       ("level", JValue.str lvl),
       ("message", JValue.str msg)]
    let (step, s6) := randint 1 3600 s5
    let (rest, s7) := goTimeSeries n (current_time + step) s6
    (record :: rest, s7)

/-- TestDataGenerator.generate_time_series_data. -/
def generate_time_series_data (count : Int) (start_time : Int) (s : PyState) :
    List Record × PyState :=
  goTimeSeries count.toNat start_time s

/-- The record loop of TestDataGenerator.generate_log_data; each record embeds
a fresh datetime.now() reading. -/
def goLog : Nat → PyState → List Record × PyState
  | 0, s => ([], s)
  | n + 1, s =>
    let (t, s1) := now s
    let (lvl, s2) :=
      choice [pys "DEBUG", pys "INFO", pys "WARN", pys "ERROR", pys "FATAL"] s1
    let (comp, s3) := choice [pys "service", pys "controller", pys "repository"] s2
    let (mlen, s4) := randint 20 200 s3
    let (msg, s5) := generate_string mlen s4
    let (thr, s6) := randint 1 10 s5
    let (uid, s7) := randint 1 10000 s6
    let (sid, s8) := generate_string 32 s7
    let (rid, s9) := generate_string 16 s8
    let (dur, s10) := randint 1 5000 s9
    let (mem, s11) := randint 100 10000 s10
    let record : Record :=
      [("timestamp", JValue.int t),
       ("level", JValue.str lvl),
       ("logger", JValue.str (pys "com.example." ++ comp)),
       ("message", JValue.str msg),
       ("thread", JValue.str (pys "thread-" ++ pys (toString thr))),
       ("user_id", JValue.int uid),
       ("session_id", JValue.str sid),
       ("request_id", JValue.str rid),
       ("duration_ms", JValue.int dur),
       ("memory_mb", JValue.int mem)]
    let (rest, s12) := goLog n s11
    (record :: rest, s12)

/-- TestDataGenerator.generate_log_data. -/
def generate_log_data (count : Int) (s : PyState) : List Record × PyState :=
  goLog count.toNat s

/-- The record loop of TestDataGenerator.generate_compression_test_data: the
same base_string and base_object values are reused in every record. -/
def goCompression :
    Nat → Nat → PyStr → Record → PyState → List Record × PyState
  | 0, _, _, _, s => ([], s)
  | n + 1, i, base_string, base_object, s =>
    let (vf, s1) := generate_string 10 s
    let (t, s2) := now s1
    let record : Record :=
      [("id", JValue.int i),
       ("base_string", JValue.str base_string),
       ("base_object", JValue.obj base_object),
       ("varying_field", JValue.str vf),
       ("timestamp", JValue.int t)]
    let (rest, s3) := goCompression n (i + 1) base_string base_object s2
    (record :: rest, s3)

/-- TestDataGenerator.generate_compression_test_data: base_string and
base_object are generated once, before the record loop. -/
def generate_compression_test_data (count : Int) (s : PyState) :
    List Record × PyState :=
  let p1 := generate_string 1000 s
  let p2 := generate_object 2 p1.2
  goCompression count.toNat 0 p1.1 p2.1 p2.2

/-- The Python literal 1.7976931348623157e+308 as an exact rational (floats
are modelled as exact decimals). -/
def maxDoubleLiteral : ℚ := 17976931348623157 * 10 ^ 292

/-- TestDataGenerator.generate_edge_case_data: the fixed append sequence from
the source (note: the nested-objects record and the large-arrays record are
appended separately).  Intermediate results are bound by projections so that
the record-list spine is independent of the draw values. -/
def generate_edge_case_data (s : PyState) : List Record × PyState :=
  let r1 : Record := []
  let r2 : Record :=
    [("field1", JValue.null), ("field2", JValue.null), ("field3", JValue.null)]
  let r3 : Record :=
    [("field1", JValue.str []), ("field2", JValue.str []),
     ("field3", JValue.str [])]
  let p1 := generate_string 100000 s
  let p2 := generate_string 100000 p1.2
  let p3 := generate_string 100000 p2.2
  let r4 : Record :=
    [("field1", JValue.str p1.1), ("field2", JValue.str p2.1),
     ("field3", JValue.str p3.1)]
  let r5 : Record :=
    [("field1", JValue.int (2 ^ 63 - 1)), ("field2", JValue.int (-(2 ^ 63))),
     ("field3", JValue.float maxDoubleLiteral)]
  let p4 := generate_unicode_string 100 p3.2
  let p5 := generate_unicode_string 100 p4.2
  let p6 := generate_unicode_string 100 p5.2
  let r6 : Record :=
    [("field1", JValue.str p4.1), ("field2", JValue.str p5.1),
     ("field3", JValue.str p6.1)]
  let p7 := generate_object 5 p6.2
  let p8 := generate_object 5 p7.2
  let p9 := generate_object 5 p8.2
  let r7 : Record :=
    [("field1", JValue.obj p7.1), ("field2", JValue.obj p8.1),
     ("field3", JValue.obj p9.1)]
  let p10 := generate_array 10000 "string" p9.2
  let p11 := generate_array 10000 "integer" p10.2
  let p12 := generate_array 10000 "float" p11.2
  let r8 : Record :=
    [("field1", JValue.arr p10.1), ("field2", JValue.arr p11.1),
     ("field3", JValue.arr p12.1)]
  ([r1, r2, r3, r4, r5, r6, r7, r8], p12.2)

/-- Ordering of object fields by key, used by json.dumps(sort_keys=True)
(Python compares str keys by code point, as does the String order). -/
def keyLE (a b : String × JValue) : Prop := a.1 ≤ b.1

instance : DecidableRel keyLE := fun a b =>
  inferInstanceAs (Decidable (a.1 ≤ b.1))

instance : IsTotal (String × JValue) keyLE :=
  ⟨fun a b => le_total a.1 b.1⟩

instance : IsTrans (String × JValue) keyLE :=
  ⟨fun _ _ _ hab hbc => le_trans hab hbc⟩

/-- Lowercase hexadecimal digit. -/
def hexDigitChar (n : Nat) : Char :=
  if n < 10 then Char.ofNat (48 + n) else Char.ofNat (87 + n)

/-- Four lowercase hexadecimal digits. -/
def hex4 (n : Nat) : String :=
  String.mk [hexDigitChar (n / 4096 % 16), hexDigitChar (n / 256 % 16),
    hexDigitChar (n / 16 % 16), hexDigitChar (n % 16)]

/-- json.dumps escaping of one code point with the default ensure_ascii=True:
printable ASCII except quote and backslash is literal, control characters use
the short escapes or u-escapes, everything above 0x7e becomes u-escapes
(a surrogate pair for astral code points). -/
def escCp (c : Nat) : String :=
  if c = 34 then "\\\""
  else if c = 92 then "\\\\"
  else if c = 8 then "\\b"
  else if c = 9 then "\\t"
  else if c = 10 then "\\n"
  else if c = 12 then "\\f"
  else if c = 13 then "\\r"
  else if c < 32 then "\\u" ++ hex4 c
  else if c < 127 then String.singleton (Char.ofNat c)
  else if c < 65536 then "\\u" ++ hex4 c
  else
    "\\u" ++ hex4 (55296 + (c - 65536) / 1024) ++
    "\\u" ++ hex4 (56320 + (c - 65536) % 1024)

/-- Serialize a Python string value as a JSON string token. -/
def renderPyStr (s : PyStr) : String :=
  "\"" ++ String.join (s.map escCp) ++ "\""

/-- Serialize an object key as a JSON string token. -/
def renderKey (k : String) : String :=
  "\"" ++ String.join (k.toList.map (fun c => escCp c.toNat)) ++ "\""

/-- Serialization of a float value.  Python uses repr of the double; the
claims depend only on this being a function of the value, so the exact
rational is rendered canonically. -/
def floatRepr (q : ℚ) : String := toString q

mutual

/-- json.dumps with default separators; sort_keys selects sorted key order
(json.dumps(data, sort_keys=True) in generate_metadata). -/
def dumps (sort_keys : Bool) : JValue → String
  | JValue.null => "null"
  | JValue.bool true => "true"
  | JValue.bool false => "false"
  | JValue.int n => toString n
  | JValue.float q => floatRepr q
  | JValue.str ss => renderPyStr ss
  | JValue.arr xs => "[" ++ dumpsList sort_keys xs ++ "]"
  | JValue.obj fs =>
    "\x7b" ++
      dumpsPairs sort_keys
        (if sort_keys then List.insertionSort keyLE fs else fs) ++ "\x7d"
termination_by v => sizeOf v
decreasing_by
  · simp_arith
  · split
    · rw [List.Perm.sizeOf_eq_sizeOf (List.perm_insertionSort keyLE fs)]
      simp_arith
    · simp_arith

/-- Array elements joined by the default item separator. -/
def dumpsList (sort_keys : Bool) : List JValue → String
  | [] => ""
  | [x] => dumps sort_keys x
  | x :: y :: xs => dumps sort_keys x ++ ", " ++ dumpsList sort_keys (y :: xs)
termination_by l => sizeOf l
decreasing_by
  all_goals simp_arith

/-- Object entries joined by the default separators. -/
def dumpsPairs (sort_keys : Bool) : List (String × JValue) → String
  | [] => ""
  | [(k, v)] => renderKey k ++ ": " ++ dumps sort_keys v
  | (k, v) :: q :: ps =>
    renderKey k ++ ": " ++ dumps sort_keys v ++ ", " ++
      dumpsPairs sort_keys (q :: ps)
termination_by l => sizeOf l
decreasing_by
  all_goals simp_arith

end

/-- UTF-8 encoding of one code point (str.encode() in Python). -/
def utf8EncodeCp (n : Nat) : List Nat :=
  if n < 128 then [n]
  else if n < 2048 then [192 + n / 64, 128 + n % 64]
  else if n < 65536 then [224 + n / 4096, 128 + n / 64 % 64, 128 + n % 64]
  else [240 + n / 262144, 128 + n / 4096 % 64, 128 + n / 64 % 64, 128 + n % 64]

/-- UTF-8 bytes of a serialized string. -/
def strBytes (s : String) : List Nat :=
  (s.toList.map (fun c => utf8EncodeCp c.toNat)).flatten

/-- Truncation to 32 bits. -/
def w32 (n : Nat) : Nat := n % 4294967296

/-- 32-bit right rotation. -/
def rotr32 (k x : Nat) : Nat := (x >>> k) ||| w32 (x <<< (32 - k))

/-- SHA-256 round constants. -/
def K256 : List Nat :=
  [1116352408, 1899447441, 3049323471, 3921009573,
   961987163, 1508970993, 2453635748, 2870763221,
   3624381080, 310598401, 607225278, 1426881987,
   1925078388, 2162078206, 2614888103, 3248222580,
   3835390401, 4022224774, 264347078, 604807628,
   770255983, 1249150122, 1555081692, 1996064986,
   2554220882, 2821834349, 2952996808, 3210313671,
   3336571891, 3584528711, 113926993, 338241895,
   666307205, 773529912, 1294757372, 1396182291,
   1695183700, 1986661051, 2177026350, 2456956037,
   2730485921, 2820302411, 3259730800, 3345764771,
   3516065817, 3600352804, 4094571909, 275423344,
   430227734, 506948616, 659060556, 883997877,
   958139571, 1322822218, 1537002063, 1747873779,
   1955562222, 2024104815, 2227730452, 2361852424,
   2428436474, 2756734187, 3204031479, 3329325298]

/-- SHA-256 initial hash state. -/
def H256 : List Nat :=
  [1779033703, 3144134277, 1013904242, 2773480762,
   1359893119, 2600822924, 528734635, 1541459225]

/-- SHA-256 message padding to 64-byte blocks with big-endian bit length. -/
def shaPad (msg : List Nat) : List Nat :=
  let bitLen := 8 * msg.length
  msg ++ [128] ++ List.replicate ((119 - msg.length % 64) % 64) 0 ++
    [bitLen / 72057594037927936 % 256, bitLen / 281474976710656 % 256,
     bitLen / 1099511627776 % 256, bitLen / 4294967296 % 256,
     bitLen / 16777216 % 256, bitLen / 65536 % 256,
     bitLen / 256 % 256, bitLen % 256]

/-- Split the padded message into 64-byte chunks. -/
def chunks64 (l : List Nat) : List (List Nat) :=
  if l = [] then []
  else l.take 64 :: chunks64 (l.drop 64)
termination_by l.length
decreasing_by
  rename_i h
  have : l.length ≠ 0 := fun hl => h (List.eq_nil_of_length_eq_zero hl)
  simp [List.length_drop]
  omega

/-- Big-endian 32-bit words of a chunk. -/
def bytesToWords : List Nat → List Nat
  | b1 :: b2 :: b3 :: b4 :: rest =>
    (b1 * 16777216 + b2 * 65536 + b3 * 256 + b4) :: bytesToWords rest
  | _ => []

/-- SHA-256 small sigma functions. -/
def ssig0 (x : Nat) : Nat := rotr32 7 x ^^^ rotr32 18 x ^^^ (x >>> 3)

def ssig1 (x : Nat) : Nat := rotr32 17 x ^^^ rotr32 19 x ^^^ (x >>> 10)

/-- SHA-256 big sigma functions. -/
def bsig0 (x : Nat) : Nat := rotr32 2 x ^^^ rotr32 13 x ^^^ rotr32 22 x

def bsig1 (x : Nat) : Nat := rotr32 6 x ^^^ rotr32 11 x ^^^ rotr32 25 x

/-- One step of the message-schedule extension. -/
def scheduleStep (W : List Nat) : List Nat :=
  W ++ [w32 (ssig1 (W.getD (W.length - 2) 0) + W.getD (W.length - 7) 0 +
    ssig0 (W.getD (W.length - 15) 0) + W.getD (W.length - 16) 0)]

/-- Extend the 16 chunk words to the 64-word schedule. -/
def buildSchedule : Nat → List Nat → List Nat
  | 0, W => W
  | k + 1, W => buildSchedule k (scheduleStep W)

/-- One SHA-256 compression round on the eight working variables. -/
def shaRound (st : List Nat) (kw : Nat × Nat) : List Nat :=
  match st with
  | [a, b, c, d, e, f, g, h] =>
    let t1 := w32 (h + bsig1 e + ((e &&& f) ^^^ ((e ^^^ 4294967295) &&& g)) +
      kw.1 + kw.2)
    let t2 := w32 (bsig0 a + ((a &&& b) ^^^ (a &&& c) ^^^ (b &&& c)))
    [w32 (t1 + t2), a, b, c, w32 (d + t1), e, f, g]
  | other => other

/-- Process one 64-byte chunk. -/
def processChunk (H : List Nat) (chunk : List Nat) : List Nat :=
  let W := buildSchedule 48 (bytesToWords chunk)
  let st := (K256.zip W).foldl shaRound H
  (H.zip st).map (fun p => w32 (p.1 + p.2))

/-- SHA-256 of a byte sequence, as eight 32-bit words. -/
def sha256 (msg : List Nat) : List Nat :=
  (chunks64 (shaPad msg)).foldl processChunk H256

/-- Eight lowercase hexadecimal digits of a 32-bit word. -/
def hex8 (n : Nat) : String := hex4 (n / 65536) ++ hex4 (n % 65536)

/-- hashlib.sha256(text.encode()).hexdigest(). -/
def sha256hex (text : String) : String :=
  String.join ((sha256 (strBytes text)).map hex8)

/-- The dataset content hash of generate_metadata:
hashlib.sha256(json.dumps(data, sort_keys=True).encode()).hexdigest(). -/
def dataHash (data : List Record) : String :=
  sha256hex (dumps true (JValue.arr (data.map JValue.obj)))

/-- TestDataGenerator.generate_metadata.  The version and seed are the
generator construction parameters; datetime.now().isoformat() and time.time()
consume successive clock readings. -/
def generate_metadata (version : PyStr) (seed : Int) (python_version : PyStr)
    (data : List Record) (generation_params : JValue) (s : PyState) :
    Record × PyState :=
  let (generated_at, s1) := now s
  let (generation_time, s2) := now s1
  ([("version", JValue.str version),
    ("generated_at", JValue.int generated_at),
    ("generator_seed", JValue.int seed),
    ("record_count", JValue.int (data.length : Int)),
    ("generation_params", generation_params),
    ("data_hash", JValue.str (pys (dataHash data))),
    ("provenance", JValue.obj
      [("generator", JValue.str (pys "jac_test_data_generator")),
       ("generator_version", JValue.str (pys "1.0.0")),
       ("python_version", JValue.str python_version),
       ("generation_time", JValue.float (generation_time : ℚ))])], s2)

/-- Python: key in dict. -/
def pyIn (k : String) (d : Record) : Bool := d.any (fun p => p.1 == k)

/-- ProvenanceValidator._validate_schema: all four required top-level keys
are present. -/
def validate_schema (provenance : Record) : Bool :=
  ["provenance", "source", "transformations", "quality"].all
    (fun field => pyIn field provenance)

/-- ProvenanceValidator._validate_checksums (source stub: always True). -/
def validate_checksums (provenance : Record) : Bool := true

/-- ProvenanceValidator._validate_timestamps (source stub: always True). -/
def validate_timestamps (provenance : Record) : Bool := true

/-- ProvenanceValidator._validate_dependencies (source stub: always True). -/
def validate_dependencies (provenance : Record) : Bool := true

/-- The checks sub-dict of a validation result. -/
structure ValidationChecks where
  schema_valid : Bool
  checksums_valid : Bool
  timestamps_valid : Bool
  dependencies_valid : Bool
deriving DecidableEq

/-- The validation_results dict of ProvenanceValidator.validate_provenance. -/
structure ValidationResults where
  valid : Bool
  errors : List String
  warnings : List String
  checks : ValidationChecks
deriving DecidableEq

/-- ProvenanceValidator.validate_provenance on a parsed provenance document
(file loading is outside the model). -/
def validate_provenance (provenance : Record) : ValidationResults :=
  let results : ValidationResults := ⟨true, [], [], ⟨false, false, false, false⟩⟩
  let results :=
    if validate_schema provenance then
      { results with checks := { results.checks with schema_valid := true } }
    else
      { results with
          errors := results.errors ++ ["Invalid provenance schema"],
          valid := false }
  let results :=
    if validate_checksums provenance then
      { results with checks := { results.checks with checksums_valid := true } }
    else
      { results with
          warnings := results.warnings ++ ["Checksum validation failed"] }
  let results :=
    if validate_timestamps provenance then
      { results with checks := { results.checks with timestamps_valid := true } }
    else
      { results with
          warnings := results.warnings ++ ["Timestamp validation failed"] }
  let results :=
    if validate_dependencies provenance then
      { results with
          checks := { results.checks with dependencies_valid := true } }
    else
      { results with
          warnings := results.warnings ++ ["Dependency validation failed"] }
  results

/-- A filesystem path, as its parts (pathlib.Path). -/
structure PyPath where
  parts : List String

/-- str(path). -/
def pathStr (p : PyPath) : String := String.intercalate "/" p.parts

/-- path.name. -/
def pathName (p : PyPath) : String := p.parts.getLastD ""

/-- ProvenanceGenerator._generate_id: first 16 hex digits of the sha256 of
the path string. -/
def generate_id (fixture_path : PyPath) : String :=
  (sha256hex (pathStr fixture_path)).take 16

/-- ProvenanceGenerator._extract_tags: category and size tags found among
the path parts, in the fixed source order. -/
def extract_tags (fixture_path : PyPath) : List String :=
  let parts := fixture_path.parts
  (if parts.contains "unit" then ["unit"] else []) ++
  (if parts.contains "integration" then ["integration"] else []) ++
  (if parts.contains "performance" then ["performance"] else []) ++
  (if parts.contains "stress" then ["stress"] else []) ++
  (if parts.contains "conformance" then ["conformance"] else []) ++
  (if parts.contains "small" then ["small"] else []) ++
  (if parts.contains "medium" then ["medium"] else []) ++
  (if parts.contains "large" then ["large"] else []) ++
  (if parts.contains "xlarge" then ["xlarge"] else [])

/-- ProvenanceGenerator._get_transformations (source stub: empty list). -/
def get_transformations (fixture_path : PyPath) : JValue := JValue.arr []

/-- ProvenanceGenerator._assess_quality.  The record count (read from the
fixture file by _count_records) and the stat file size are external inputs. -/
def assess_quality (record_count file_size : Int) (s : PyState) :
    JValue × PyState :=
  let (ts, s1) := now s
  (JValue.obj
    [("validation", JValue.obj
      [("timestamp", JValue.int ts),
       ("tool", JValue.str (pys "jac_data_validator")),
       ("version", JValue.str (pys "1.0.0")),
       ("results", JValue.obj
         [("format_valid", JValue.bool true),
          ("schema_valid", JValue.bool true),
          ("integrity_valid", JValue.bool true),
          ("quality_score", JValue.float (95 / 100))]),
       ("issues", JValue.arr [])]),
     ("metrics", JValue.obj
      [("record_count", JValue.int record_count),
       ("file_size_bytes", JValue.int file_size),
       ("compression_ratio", JValue.float 1),
       ("encoding", JValue.str (pys "utf-8")),
       ("line_ending", JValue.str (pys "unix"))])], s1)

/-- ProvenanceGenerator._track_usage. -/
def track_usage (s : PyState) : JValue × PyState :=
  let (ts, s1) := now s
  (JValue.obj
    [("test_runs", JValue.arr []),
     ("access_count", JValue.int 0),
     ("last_accessed", JValue.int ts),
     ("access_patterns", JValue.obj
       [("daily", JValue.int 0),
        ("weekly", JValue.int 0),
        ("monthly", JValue.int 0)])], s1)

/-- ProvenanceGenerator._build_lineage. -/
def build_lineage (fixture_path : PyPath) : JValue :=
  JValue.obj [("nodes", JValue.arr []), ("edges", JValue.arr [])]

/-- ProvenanceGenerator._track_dependencies. -/
def track_dependencies (fixture_path : PyPath) : JValue :=
  JValue.obj [("direct", JValue.arr []), ("transitive", JValue.arr []),
    ("tools", JValue.arr [])]

/-- ProvenanceGenerator._check_compliance. -/
def check_compliance (fixture_path : PyPath) : JValue :=
  JValue.obj [("standards", JValue.arr []), ("certifications", JValue.arr [])]

/-- ProvenanceGenerator._build_audit_trail. -/
def build_audit_trail (fixture_path : PyPath) (s : PyState) :
    JValue × PyState :=
  let (ts, s1) := now s
  (JValue.arr
    [JValue.obj
      [("timestamp", JValue.int ts),
       ("actor", JValue.str (pys "system")),
       ("action", JValue.str (pys "provenance_generated")),
       ("resource", JValue.str (pys (pathStr fixture_path))),
       ("details", JValue.obj [("result", JValue.str (pys "success"))])]], s1)

/-- ProvenanceGenerator.generate_provenance: the nine-key provenance
document.  record_count and file_size are the external file reads used by
_assess_quality. -/
def generate_provenance (fixture_path : PyPath) (source_info : JValue)
    (record_count file_size : Int) (s : PyState) : Record × PyState :=
  let (created_at, s1) := now s
  let (quality, s2) := assess_quality record_count file_size s1
  let (usage, s3) := track_usage s2
  let (audit_trail, s4) := build_audit_trail fixture_path s3
  ([("provenance", JValue.obj
      [("id", JValue.str (pys (generate_id fixture_path))),
       ("version", JValue.str (pys "1.0.0")),
       ("created_at", JValue.int created_at),
       ("created_by", JValue.str (pys "system")),
       ("description",
         JValue.str (pys ("Provenance for " ++ pathName fixture_path))),
       ("tags", JValue.arr ((extract_tags fixture_path).map
         (fun t => JValue.str (pys t)))),
       ("status", JValue.str (pys "active"))]),
    ("source", source_info),
    ("transformations", get_transformations fixture_path),
    ("quality", quality),
    ("usage", usage),
    ("lineage", build_lineage fixture_path),
    ("dependencies", track_dependencies fixture_path),
    ("compliance", check_compliance fixture_path),
    ("audit_trail", audit_trail)], s4)

mutual

/-- Structural-content equivalence of JSON values: equal scalars, pointwise
equivalent arrays, and objects with the same key-value pairs in any insertion
order (keys unique, as in any value built from Python dicts). -/
def jsonEquiv : JValue → JValue → Bool
  | .str a, .str b => decide (a = b)
  | .int a, .int b => decide (a = b)
  | .float a, .float b => decide (a = b)
  | .bool a, .bool b => decide (a = b)
  | .null, .null => true
  | .arr xs, .arr ys => jsonEquivList xs ys
  | .obj xs, .obj ys =>
    decide (xs.map Prod.fst).Nodup && decide (ys.map Prod.fst).Nodup &&
      jsonEquivPairs xs ys
  | _, _ => false
termination_by a b => (sizeOf a, 0)
decreasing_by
  all_goals apply Prod.Lex.left
  all_goals simp_arith

/-- Pointwise equivalence of array elements. -/
def jsonEquivList : List JValue → List JValue → Bool
  | [], [] => true
  | x :: xs, y :: ys => jsonEquiv x y && jsonEquivList xs ys
  | _, _ => false
termination_by xs ys => (sizeOf xs, 0)
decreasing_by
  all_goals apply Prod.Lex.left
  all_goals simp_arith

/-- Multiset matching of object fields: each field of the first list is
matched and removed from the second. -/
def jsonEquivPairs : List (String × JValue) → List (String × JValue) → Bool
  | [], ys => ys.isEmpty
  | (k, v) :: rest, ys =>
    match jsonRemoveMatch k v ys with
    | none => false
    | some ys2 => jsonEquivPairs rest ys2
termination_by xs ys => (sizeOf xs, 0)
decreasing_by
  all_goals apply Prod.Lex.left
  all_goals simp_arith

/-- Remove the first field of the list matching the given key with an
equivalent value. -/
def jsonRemoveMatch (k : String) (v : JValue) :
    List (String × JValue) → Option (List (String × JValue))
  | [] => none
  | (k2, v2) :: ys =>
    if k == k2 && jsonEquiv v v2 then some ys
    else (jsonRemoveMatch k v ys).map (fun zs => (k2, v2) :: zs)
termination_by ys => (sizeOf v + 1, sizeOf ys)
decreasing_by
  · apply Prod.Lex.left
    simp_arith
  · apply Prod.Lex.right
    simp_arith

end

mutual

/-- Object-nesting depth of a value: the number of object levels on the
deepest path (arrays are transparent; scalars have depth 0). -/
def objDepth : JValue → Nat
  | .obj fs => 1 + objDepthPairs fs
  | .arr xs => objDepthList xs
  | _ => 0

/-- Deepest object nesting among array elements. -/
def objDepthList : List JValue → Nat
  | [] => 0
  | x :: xs => max (objDepth x) (objDepthList xs)

/-- Deepest object nesting among field values. -/
def objDepthPairs : List (String × JValue) → Nat
  | [] => 0
  | (_, v) :: ps => max (objDepth v) (objDepthPairs ps)

end

/-- The band selector of generate_unicode_string, as a function of the up to
three uniform draws the branch cascade can consume for one character
(0 ASCII, 1 Latin-1 supplement, 2 Basic Multilingual Plane,
3 Supplementary Plane). -/
def charBand (u1 u2 u3 : ℚ) : Nat :=
  if u1 < 3/10 then 0
  else if u2 < 5/10 then 1
  else if u3 < 7/10 then 2
  else 3

/-- Lower bound of each code-point band. -/
def bandLo : Nat → Nat
  | 0 => 32
  | 1 => 128
  | 2 => 256
  | _ => 65536

/-- Upper bound of each code-point band. -/
def bandHi : Nat → Nat
  | 0 => 126
  | 1 => 255
  | 2 => 65535
  | _ => 1114111

/-- One modelled random() outcome: k/10 for k in 0..9. -/
def unitQ (k : Nat) : ℚ := (k : ℚ) / 10

/-- All 1000 equiprobable draw triples of the model. -/
def allTenTriples : List (Nat × Nat × Nat) :=
  (List.range 10).flatMap (fun k1 =>
    (List.range 10).flatMap (fun k2 =>
      (List.range 10).map (fun k3 => (k1, k2, k3))))

/-- Number of equiprobable draw triples that select band b (out of 1000). -/
def bandTripleCount (b : Nat) : Nat :=
  (allTenTriples.filter
    (fun t => charBand (unitQ t.1) (unitQ t.2.1) (unitQ t.2.2) == b)).length

/-- A fixed all-zero entropy and clock assignment for concrete evaluations. -/
def zeroState : PyState := ⟨fun _ => 0, 0, fun _ => 0, 0⟩

theorem randint_bounds (a b : Int) (s : PyState) (h : a ≤ b) :
    a ≤ (randint a b s).1 ∧ (randint a b s).1 ≤ b := by
  simp only [randint, nextNat]
  have hm : 0 < (b - a + 1).toNat := by omega
  have := Nat.mod_lt (s.rand s.ridx) hm
  omega

theorem pyChoices_length [Inhabited α] (l : List α) (k : Nat) (s : PyState) :
    (pyChoices l k s).1.length = k := by
  induction k generalizing s with
  | zero => rfl
  | succ m ih => simp [pyChoices, ih]

theorem generate_string_length (L : Int) (s : PyState) :
    (generate_string L s).1.length = L.toNat := by
  unfold generate_string
  split
  · simp_all
  · exact pyChoices_length _ _ _

theorem genUnicodeChars_length (k : Nat) (s : PyState) :
    (genUnicodeChars k s).1.length = k := by
  induction k generalizing s with
  | zero => rfl
  | succ m ih => simp [genUnicodeChars, ih]

theorem generate_unicode_string_length (L : Int) (s : PyState) :
    (generate_unicode_string L s).1.length = L.toNat := by
  unfold generate_unicode_string
  split
  · simp_all
  · exact genUnicodeChars_length _ _

theorem genArrayElems_length_le (n : Nat) (ft : String) (s : PyState) :
    (genArrayElems n ft s).1.length ≤ n := by
  induction n generalizing s with
  | zero => simp [genArrayElems]
  | succ m ih =>
    simp only [genArrayElems]
    split_ifs <;> first
      | exact Nat.le_succ_of_le (ih _)
      | simp_arith [ih]

theorem genObjectFields_length_le (k i : Nat) (d : Int) (s : PyState) :
    (genObjectFields k i d s).1.length ≤ k := by
  induction k generalizing i s with
  | zero => simp [genObjectFields]
  | succ m ih =>
    simp only [genObjectFields]
    split_ifs <;> first
      | exact Nat.le_succ_of_le (ih _ _)
      | simp_arith [ih]

theorem generate_object_length_le (d : Int) (s : PyState) :
    (generate_object d s).1.length ≤ 10 := by
  unfold generate_object
  split
  · simp
  · show (genObjectFields (randint 1 10 s).1.toNat 0 d
      (randint 1 10 s).2).1.length ≤ 10
    have h1 := randint_bounds 1 10 s (by omega)
    have h2 := genObjectFields_length_le (randint 1 10 s).1.toNat 0 d
      (randint 1 10 s).2
    omega

/-- Python dict lookup (d.get(k) / d[k]). -/
def pyGet (k : String) : Record → Option JValue
  | [] => none
  | (k2, v) :: rest => if k2 = k then some v else pyGet k rest

/-- The keys of a record, in insertion order. -/
def keysOf (r : Record) : List String := r.map Prod.fst

/-- A field type that matches one of the dispatch branches. -/
def recognizedType (ft : String) : Bool := FIELD_TYPES.contains ft

/-- C7: for every call, generated size is bounded by the supplied limits:
generate_array returns at most size elements and generate_array 0 returns [];
generate_object returns at most 10 fields and depth at most 0 returns the
empty object. -/
theorem generated_sizes_bounded :
    ∀ (size : Int) (ft : String) (d : Int) (s : PyState),
      (generate_array size ft s).1.length ≤ size.toNat ∧
      generate_array 0 ft s = ([], s) ∧
      (generate_object d s).1.length ≤ 10 ∧
      (d ≤ 0 → generate_object d s = ([], s)) := by
  intro size ft d s
  refine ⟨?_, ?_, generate_object_length_le d s, fun hd => ?_⟩
  · unfold generate_array
    split
    · simp
    · exact genArrayElems_length_le _ _ _
  · unfold generate_array
    simp
  · unfold generate_object
    rw [if_pos hd]

/-- Witness for C7 at concrete inputs. -/
theorem generated_sizes_bounded_witness :
    (generate_array 3 "string" zeroState).1.length ≤ (3 : Int).toNat ∧
    generate_array 0 "boolean" zeroState = ([], zeroState) ∧
    (generate_object 4 zeroState).1.length ≤ 10 ∧
    generate_object (-2) zeroState = ([], zeroState) := by
  refine ⟨(generated_sizes_bounded 3 "string" 4 zeroState).1,
    (generated_sizes_bounded 0 "boolean" 4 zeroState).2.1,
    (generated_sizes_bounded 3 "string" 4 zeroState).2.2.1,
    (generated_sizes_bounded 3 "string" (-2) zeroState).2.2.2 (by decide)⟩

theorem genRecordFields_keys (fts : List String) (i : Nat) (s : PyState) :
    keysOf (genRecordFields fts i s).1 =
      (List.range fts.length).filterMap (fun j =>
        if recognizedType (fts.getD j "") then
          some ("field_" ++ toString (i + j))
        else none) := by
  induction fts generalizing i s with
  | nil => simp [genRecordFields, keysOf]
  | cons ft rest ih =>
    have ihm : ∀ s2, List.map Prod.fst (genRecordFields rest (i + 1) s2).1 =
        List.filterMap (fun j => if recognizedType (rest.getD j "") = true
          then some ("field_" ++ toString (i + (j + 1))) else none)
          (List.range rest.length) := by
      intro s2
      have hh := ih (i + 1) s2
      simp only [keysOf] at hh
      rw [hh]
      congr 1
      funext j
      rw [Nat.add_right_comm, Nat.add_assoc]
    simp only [genRecordFields, keysOf, List.length_cons, List.range_succ_eq_map,
      List.filterMap_cons, List.filterMap_map,
      show ∀ f : Nat → Option String, f ∘ Nat.succ = fun j => f (j + 1) from
        fun f => rfl,
      List.getD_cons_succ, List.getD_cons_zero, Nat.add_zero]
    split_ifs with h1 h2 h3 h4 h5 h6 h7 <;>
      simp_all [ihm, recognizedType, FIELD_TYPES]

theorem genRecordFields_length (fts : List String) (i : Nat) (s : PyState) :
    (genRecordFields fts i s).1.length = (fts.filter recognizedType).length := by
  induction fts generalizing i s with
  | nil => simp [genRecordFields]
  | cons ft rest ih =>
    simp only [genRecordFields, List.filter_cons]
    split_ifs with h1 h2 h3 h4 h5 h6 h7 <;>
      simp_all [recognizedType, FIELD_TYPES, ih]

/-- C10: generate_record is total for every ordered field-type list and
silently skips a requested type outside the palette: the record keys are
exactly the field_i names at positions with recognized types, the record
length is the number of recognized entries (so it can be shorter than the
request), and concretely an unknown type at position 1 yields no field_1
key. -/
theorem generate_record_skips_unknown_types :
    ∀ (field_types : List String) (s : PyState),
      keysOf (generate_record field_types s).1 =
        (List.range field_types.length).filterMap (fun i =>
          if recognizedType (field_types.getD i "") then
            some ("field_" ++ toString i)
          else none) ∧
      (generate_record field_types s).1.length =
        (field_types.filter recognizedType).length ∧
      pyGet "field_1"
        (generate_record ["string", "flag", "integer"] zeroState).1 = none := by
  intro field_types s
  refine ⟨?_, genRecordFields_length field_types 0 s, ?_⟩
  · have h := genRecordFields_keys field_types 0 s
    simpa using h
  · decide

theorem goTimeSeries_spec (k : Nat) (t : Int) (s : PyState) :
    ∃ ts : List Int,
      ((goTimeSeries k t s).1.map (pyGet "timestamp") =
        ts.map (fun x => some (JValue.int x))) ∧
      ts.length = k ∧
      (0 < k → ts.head? = some t) ∧
      List.Chain' (fun a b => a + 1 ≤ b ∧ b ≤ a + 3600) ts := by
  induction k generalizing t s with
  | zero => exact ⟨[], by simp [goTimeSeries], rfl, by simp, by simp⟩
  | succ m ih =>
    rcases hv : generate_float (-1000000) 1000000 s with ⟨v, s1⟩
    rcases hc : choice [pys "A", pys "B", pys "C", pys "D"] s1 with ⟨cat, s2⟩
    rcases hl : choice [pys "DEBUG", pys "INFO", pys "WARN", pys "ERROR"] s2
      with ⟨lvl, s3⟩
    rcases hm : randint 10 100 s3 with ⟨mlen, s4⟩
    rcases hs : generate_string mlen s4 with ⟨msg, s5⟩
    rcases hst : randint 1 3600 s5 with ⟨step, s6⟩
    obtain ⟨ts, h1, h2, h3, h4⟩ := ih (t + step) s6
    refine ⟨t :: ts, ?_, by simp [h2], fun _ => rfl, ?_⟩
    · simp [goTimeSeries, hv, hc, hl, hm, hs, hst, pyGet, h1]
    · rw [List.chain'_cons']
      refine ⟨fun b hb => ?_, h4⟩
      have hbound := randint_bounds 1 3600 s5 (by omega)
      rw [hst] at hbound
      cases m with
      | zero =>
        have hnil : ts = [] := List.eq_nil_of_length_eq_zero h2
        subst hnil
        simp at hb
      | succ mm =>
        rw [h3 (Nat.succ_pos mm)] at hb
        simp only [Option.mem_def, Option.some.injEq] at hb
        subst hb
        exact ⟨by omega, by omega⟩

/-- C8: for every seed, count at least 1 and start time T, the time-series
dataset has exactly count records, whose timestamps form a strictly
increasing sequence: the first equals T and each subsequent timestamp
exceeds the previous by at least 1 and at most 3600 seconds. -/
theorem time_series_timestamps :
    ∀ (count start_time : Int) (s : PyState), 1 ≤ count →
      (generate_time_series_data count start_time s).1.length = count.toNat ∧
      ∃ ts : List Int,
        ((generate_time_series_data count start_time s).1.map
          (pyGet "timestamp") = ts.map (fun x => some (JValue.int x))) ∧
        ts.length = count.toNat ∧
        ts.head? = some start_time ∧
        List.Chain' (fun a b => a + 1 ≤ b ∧ b ≤ a + 3600) ts := by
  intro count start_time s hc
  obtain ⟨ts, h1, h2, h3, h4⟩ := goTimeSeries_spec count.toNat start_time s
  have hlen : (generate_time_series_data count start_time s).1.length =
      count.toNat := by
    have hmap := congrArg List.length h1
    simpa [generate_time_series_data, h2] using hmap
  exact ⟨hlen, ts, by simpa [generate_time_series_data] using h1, h2,
    h3 (by omega), h4⟩

/-- Witness for C8 at count 2, start time 5. -/
theorem time_series_timestamps_witness :
    (1 : Int) ≤ 2 ∧
      (generate_time_series_data 2 5 zeroState).1.length = (2 : Int).toNat :=
  ⟨by decide, (time_series_timestamps 2 5 zeroState (by decide)).1⟩

theorem objDepthList_append (l1 l2 : List JValue) :
    objDepthList (l1 ++ l2) = max (objDepthList l1) (objDepthList l2) := by
  induction l1 with
  | nil => simp [objDepthList]
  | cons x xs ih => simp [objDepthList, ih, Nat.max_assoc]

theorem objDepthPairs_append (l1 l2 : List (String × JValue)) :
    objDepthPairs (l1 ++ l2) = max (objDepthPairs l1) (objDepthPairs l2) := by
  induction l1 with
  | nil => simp [objDepthPairs]
  | cons x xs ih =>
    obtain ⟨k, v⟩ := x
    simp [objDepthPairs, ih, Nat.max_assoc]

theorem genArrayElems_string_objDepth (n : Nat) (s : PyState) :
    objDepthList (genArrayElems n "string" s).1 = 0 := by
  induction n generalizing s with
  | zero => simp [genArrayElems, objDepthList]
  | succ m ih =>
    simp [genArrayElems, objDepthList_append, objDepthList, objDepth, ih]

theorem generate_array_string_objDepth (sz : Int) (s : PyState) :
    objDepthList (generate_array sz "string" s).1 = 0 := by
  unfold generate_array
  split
  · simp [objDepthList]
  · exact genArrayElems_string_objDepth _ _

theorem genObjectFields_objDepth (n : Nat)
    (ihgen : ∀ (d2 : Int) (s2 : PyState), d2.toNat ≤ n →
      objDepth (JValue.obj (generate_object d2 s2).1) ≤ max 1 d2.toNat)
    (k i : Nat) (d : Int) (hd : 1 ≤ d) (hdn : d.toNat ≤ n + 1) (s : PyState) :
    objDepthPairs (genObjectFields k i d s).1 ≤ d.toNat - 1 := by
  induction k generalizing i s with
  | zero => simp [genObjectFields, objDepthPairs]
  | succ m ih =>
    simp only [genObjectFields]
    split_ifs with h1 h2 h3 h4 h5 h6 h7
    · simp only [objDepthPairs_append, objDepthPairs, objDepth]
      have := ih (i + 1)
      simp_all
      try omega
    · simp only [objDepthPairs_append, objDepthPairs, objDepth]
      have := ih (i + 1)
      simp_all
      try omega
    · simp only [objDepthPairs_append, objDepthPairs, objDepth]
      have := ih (i + 1)
      simp_all
      try omega
    · simp only [objDepthPairs_append, objDepthPairs, objDepth]
      have := ih (i + 1)
      simp_all
      try omega
    · simp only [objDepthPairs_append, objDepthPairs, objDepth, generate_null]
      have := ih (i + 1)
      simp_all
      try omega
    · obtain ⟨hft, hdd⟩ := h6
      have hrec := ihgen (d - 1) ((choice FIELD_TYPES s).2) (by omega)
      simp only [objDepthPairs_append, objDepthPairs] at *
      have := ih (i + 1)
      simp_all [objDepth]
      try omega
    · simp only [objDepthPairs_append, objDepthPairs, objDepth,
        generate_array_string_objDepth]
      have := ih (i + 1)
      simp_all
      try omega
    · simp only [List.nil_append]
      exact ih (i + 1) _

theorem generate_object_objDepth_aux :
    ∀ (n : Nat) (d : Int) (s : PyState), d.toNat ≤ n →
      objDepth (JValue.obj (generate_object d s).1) ≤ max 1 d.toNat := by
  intro n
  induction n with
  | zero =>
    intro d s hd
    have hle : d ≤ 0 := by omega
    unfold generate_object
    rw [if_pos hle]
    simp [objDepth, objDepthPairs]
  | succ m ih =>
    intro d s hd
    by_cases hle : d ≤ 0
    · unfold generate_object
      rw [if_pos hle]
      simp [objDepth, objDepthPairs]
    · unfold generate_object
      rw [if_neg hle]
      show objDepth (JValue.obj (genObjectFields (randint 1 10 s).1.toNat 0 d
        (randint 1 10 s).2).1) ≤ max 1 d.toNat
      have hf := genObjectFields_objDepth m (fun d2 s2 h2 => ih d2 s2 h2)
        (randint 1 10 s).1.toNat 0 d (by omega) (by omega) (randint 1 10 s).2
      simp only [objDepth]
      omega

theorem generate_object_objDepth (d : Int) (s : PyState) :
    objDepth (JValue.obj (generate_object d s).1) ≤ max 1 d.toNat :=
  generate_object_objDepth_aux d.toNat d s le_rfl

theorem genArrayElems_length_eq (n : Nat) (ft : String)
    (hft : recognizedType ft = true) (s : PyState) :
    (genArrayElems n ft s).1.length = n := by
  induction n generalizing s with
  | zero => simp [genArrayElems]
  | succ m ih =>
    simp only [genArrayElems]
    split_ifs <;> simp_all [recognizedType, FIELD_TYPES, ih]

theorem generate_array_length_eq (sz : Int) (ft : String)
    (hft : recognizedType ft = true) (s : PyState) :
    (generate_array sz ft s).1.length = sz.toNat := by
  unfold generate_array
  split
  · simp_all
  · exact genArrayElems_length_eq _ _ hft _

theorem generate_edge_case_data_length (s : PyState) :
    (generate_edge_case_data s).1.length = 8 := rfl

/-- C2 counterexample: the edge-case generator appends the deeply-nested
record and the large-array record separately, so it returns 8 records, not
7, already at seed stream zero. -/
theorem edge_case_not_seven_records :
    (generate_edge_case_data zeroState).1.length ≠ 7 := by
  have h8 := generate_edge_case_data_length zeroState
  omega

/-- C2 (amended): for every seed the edge-case generator returns exactly 8
records, in the fixed order: empty object; all-null fields; all-empty-string
fields; very long strings (length 100000) per field; extreme numeric values
(max/min 64-bit integer, max double); Unicode-heavy fields (length 100);
deeply nested objects (depth 5); large arrays (size 10000) per field --
the last two as separate records. -/
theorem edge_case_records (s : PyState) :
    (generate_edge_case_data s).1.length = 8 ∧
    (generate_edge_case_data s).1[0]? = some [] ∧
    (generate_edge_case_data s).1[1]? = some
      [("field1", JValue.null), ("field2", JValue.null),
       ("field3", JValue.null)] ∧
    (generate_edge_case_data s).1[2]? = some
      [("field1", JValue.str []), ("field2", JValue.str []),
       ("field3", JValue.str [])] ∧
    (∃ a b c : PyStr, (generate_edge_case_data s).1[3]? = some
      [("field1", JValue.str a), ("field2", JValue.str b),
       ("field3", JValue.str c)] ∧
      a.length = 100000 ∧ b.length = 100000 ∧ c.length = 100000) ∧
    (generate_edge_case_data s).1[4]? = some
      [("field1", JValue.int (2 ^ 63 - 1)), ("field2", JValue.int (-(2 ^ 63))),
       ("field3", JValue.float maxDoubleLiteral)] ∧
    (∃ a b c : PyStr, (generate_edge_case_data s).1[5]? = some
      [("field1", JValue.str a), ("field2", JValue.str b),
       ("field3", JValue.str c)] ∧
      a.length = 100 ∧ b.length = 100 ∧ c.length = 100) ∧
    (∃ o1 o2 o3 : Record, (generate_edge_case_data s).1[6]? = some
      [("field1", JValue.obj o1), ("field2", JValue.obj o2),
       ("field3", JValue.obj o3)] ∧
      objDepth (JValue.obj o1) ≤ 5 ∧ objDepth (JValue.obj o2) ≤ 5 ∧
      objDepth (JValue.obj o3) ≤ 5 ∧
      o1.length ≤ 10 ∧ o2.length ≤ 10 ∧ o3.length ≤ 10) ∧
    (∃ a1 a2 a3 : List JValue, (generate_edge_case_data s).1[7]? = some
      [("field1", JValue.arr a1), ("field2", JValue.arr a2),
       ("field3", JValue.arr a3)] ∧
      a1.length = 10000 ∧ a2.length = 10000 ∧ a3.length = 10000) := by
  rcases h1 : generate_string 100000 s with ⟨a1, s1⟩
  rcases h2 : generate_string 100000 s1 with ⟨a2, s2⟩
  rcases h3 : generate_string 100000 s2 with ⟨a3, s3⟩
  rcases h4 : generate_unicode_string 100 s3 with ⟨u1, s4⟩
  rcases h5 : generate_unicode_string 100 s4 with ⟨u2, s5⟩
  rcases h6 : generate_unicode_string 100 s5 with ⟨u3, s6⟩
  rcases h7 : generate_object 5 s6 with ⟨o1, s7⟩
  rcases h8 : generate_object 5 s7 with ⟨o2, s8⟩
  rcases h9 : generate_object 5 s8 with ⟨o3, s9⟩
  rcases h10 : generate_array 10000 "string" s9 with ⟨ar1, s10⟩
  rcases h11 : generate_array 10000 "integer" s10 with ⟨ar2, s11⟩
  rcases h12 : generate_array 10000 "float" s11 with ⟨ar3, s12⟩
  have hl1 := generate_string_length 100000 s
  have hl2 := generate_string_length 100000 s1
  have hl3 := generate_string_length 100000 s2
  have hl4 := generate_unicode_string_length 100 s3
  have hl5 := generate_unicode_string_length 100 s4
  have hl6 := generate_unicode_string_length 100 s5
  have hd7 := generate_object_objDepth 5 s6
  have hd8 := generate_object_objDepth 5 s7
  have hd9 := generate_object_objDepth 5 s8
  have hn7 := generate_object_length_le 5 s6
  have hn8 := generate_object_length_le 5 s7
  have hn9 := generate_object_length_le 5 s8
  have ha10 := generate_array_length_eq 10000 "string" (by decide) s9
  have ha11 := generate_array_length_eq 10000 "integer" (by decide) s10
  have ha12 := generate_array_length_eq 10000 "float" (by decide) s11
  rw [h1] at hl1
  rw [h2] at hl2
  rw [h3] at hl3
  rw [h4] at hl4
  rw [h5] at hl5
  rw [h6] at hl6
  rw [h7] at hd7 hn7
  rw [h8] at hd8 hn8
  rw [h9] at hd9 hn9
  rw [h10] at ha10
  rw [h11] at ha11
  rw [h12] at ha12
  simp only [generate_edge_case_data, h1, h2, h3, h4, h5, h6, h7, h8, h9,
    h10, h11, h12]
  refine ⟨rfl, rfl, rfl, rfl, ⟨a1, a2, a3, rfl, ?_, ?_, ?_⟩, rfl,
    ⟨u1, u2, u3, rfl, ?_, ?_, ?_⟩,
    ⟨o1, o2, o3, rfl, ?_, ?_, ?_, ?_, ?_, ?_⟩,
    ⟨ar1, ar2, ar3, rfl, ?_, ?_, ?_⟩⟩ <;>
    simp_all

theorem goCompression_shape (n i : Nat) (bs : PyStr) (bo : Record)
    (s : PyState) :
    ∀ r ∈ (goCompression n i bs bo s).1, ∃ (j : Nat) (vf : PyStr) (t : Int),
      r = [("id", JValue.int j), ("base_string", JValue.str bs),
           ("base_object", JValue.obj bo), ("varying_field", JValue.str vf),
           ("timestamp", JValue.int t)] := by
  induction n generalizing i s with
  | zero => simp [goCompression]
  | succ m ih =>
    intro r hr
    rcases hv : generate_string 10 s with ⟨vf, s1⟩
    rcases ht : now s1 with ⟨t, s2⟩
    simp only [goCompression, hv, ht, List.mem_cons] at hr
    rcases hr with hr | hr
    · exact ⟨i, vf, t, hr⟩
    · exact ih (i + 1) s2 r hr

/-- C5 (amended): in a compression dataset of any count, all records hold
byte-identical base_string values and byte-identical base_object values; only
the fields id, varying_field and timestamp can differ across records (every
key other than those three looks up equal on any two records). -/
theorem compression_shared_fields :
    ∀ (count : Int) (s : PyState) (r r2 : Record),
      r ∈ (generate_compression_test_data count s).1 →
      r2 ∈ (generate_compression_test_data count s).1 →
      pyGet "base_string" r = pyGet "base_string" r2 ∧
      pyGet "base_object" r = pyGet "base_object" r2 ∧
      ∀ k : String, k ≠ "id" → k ≠ "varying_field" → k ≠ "timestamp" →
        pyGet k r = pyGet k r2 := by
  intro count s r r2 hr hr2
  simp only [generate_compression_test_data] at hr hr2
  obtain ⟨j1, vf1, t1, e1⟩ := goCompression_shape _ _ _ _ _ r hr
  obtain ⟨j2, vf2, t2, e2⟩ := goCompression_shape _ _ _ _ _ r2 hr2
  subst e1
  subst e2
  refine ⟨by simp [pyGet], by simp [pyGet], ?_⟩
  intro k h1 h2 h3
  simp only [pyGet, if_neg (show ¬("id" = k) from fun h => h1 h.symm),
    if_neg (show ¬("varying_field" = k) from fun h => h2 h.symm),
    if_neg (show ¬("timestamp" = k) from fun h => h3 h.symm)]

/-- Witness for C5 (amended) at count 10, seed stream zero, on the first two
records and the key base_string. -/
theorem compression_shared_fields_witness :
    pyGet "base_string"
        ((generate_compression_test_data 10 zeroState).1.getD 0 []) =
      pyGet "base_string"
        ((generate_compression_test_data 10 zeroState).1.getD 1 []) := by
  have hmem : ∀ i : Nat, i < 10 →
      (generate_compression_test_data 10 zeroState).1.getD i [] ∈
        (generate_compression_test_data 10 zeroState).1 := by
    intro i hi
    have hlen : (generate_compression_test_data 10 zeroState).1.length = 10 :=
      rfl
    rw [List.getD_eq_getElem _ _ (by omega)]
    exact List.getElem_mem _
  exact (compression_shared_fields 10 zeroState _ _ (hmem 0 (by omega))
    (hmem 1 (by omega))).1

/-- C5 counterexample: at count 10 and seed stream zero, records 0 and 1
differ in the field id (0 versus 1), so varying_field and timestamp are not
the only fields that differ across records. -/
theorem compression_only_varying_timestamp_false :
    ¬ (∀ (i j : Nat), i < 10 → j < 10 → ∀ k : String,
        k ≠ "varying_field" → k ≠ "timestamp" →
        pyGet k ((generate_compression_test_data 10 zeroState).1.getD i []) =
        pyGet k ((generate_compression_test_data 10 zeroState).1.getD j [])) := by
  intro h
  have h01 := h 0 1 (by omega) (by omega) "id" (by decide) (by decide)
  have e0 : pyGet "id"
      ((generate_compression_test_data 10 zeroState).1.getD 0 []) =
      some (JValue.int 0) := rfl
  have e1 : pyGet "id"
      ((generate_compression_test_data 10 zeroState).1.getD 1 []) =
      some (JValue.int 1) := rfl
  rw [e0, e1] at h01
  exact absurd h01 (by decide)

theorem validate_provenance_eq (p : Record) :
    validate_provenance p =
      ⟨validate_schema p,
       if validate_schema p then [] else ["Invalid provenance schema"],
       [],
       ⟨validate_schema p, true, true, true⟩⟩ := by
  by_cases h : validate_schema p <;>
    simp [validate_provenance, h, validate_checksums, validate_timestamps,
      validate_dependencies]

theorem generate_provenance_has_keys (fp : PyPath) (si : JValue)
    (rc fs : Int) (s : PyState) :
    validate_schema (generate_provenance fp si rc fs s).1 = true := by
  rcases h1 : now s with ⟨t1, s1⟩
  rcases h2 : assess_quality rc fs s1 with ⟨q, s2⟩
  rcases h3 : track_usage s2 with ⟨u, s3⟩
  rcases h4 : build_audit_trail fp s3 with ⟨a, s4⟩
  simp [generate_provenance, h1, h2, h3, h4, validate_schema, pyIn]

/-- C9: validate_provenance reports a document valid (valid true, no errors)
iff the document has all four top-level keys provenance, source,
transformations, quality; a missing key is the only condition producing an
error (the other checks return True and never warn, so warnings are always
empty); and every document produced by generate_provenance contains the four
keys and therefore validates as valid with no errors. -/
theorem provenance_validation :
    (∀ p : Record,
      ((validate_provenance p).valid = true ↔ validate_schema p = true) ∧
      ((validate_provenance p).errors = [] ↔ validate_schema p = true) ∧
      (validate_provenance p).warnings = [] ∧
      (validate_provenance p).checks = ⟨validate_schema p, true, true, true⟩) ∧
    ∀ (fp : PyPath) (si : JValue) (rc fs : Int) (s : PyState),
      (validate_provenance (generate_provenance fp si rc fs s).1).valid =
        true ∧
      (validate_provenance (generate_provenance fp si rc fs s).1).errors =
        [] := by
  constructor
  · intro p
    rw [validate_provenance_eq p]
    by_cases h : validate_schema p <;> simp [h]
  · intro fp si rc fs s
    rw [validate_provenance_eq]
    simp [generate_provenance_has_keys fp si rc fs s]

theorem randint_toNat_bounds (a b : Int) (ha : 0 ≤ a) (h : a ≤ b)
    (s : PyState) :
    a.toNat ≤ ((randint a b s).1).toNat ∧
      ((randint a b s).1).toNat ≤ b.toNat := by
  have := randint_bounds a b s h
  omega

/-- The band selector over tenth indices: k/10 compared with 3/10, 5/10,
7/10 is k compared with 3, 5, 7. -/
def charBandN (k1 k2 k3 : Nat) : Nat :=
  if k1 < 3 then 0 else if k2 < 5 then 1 else if k3 < 7 then 2 else 3

theorem unitQ_lt_div_ten (k m : Nat) (hm : 0 < m) :
    (unitQ k < (m : ℚ) / 10) ↔ k < m := by
  unfold unitQ
  rw [div_lt_div_iff (by norm_num) (by norm_num)]
  constructor
  · intro h
    by_contra hk
    push_neg at hk
    have hq : (m : ℚ) ≤ (k : ℚ) := by exact_mod_cast hk
    linarith
  · intro h
    have hq : (k : ℚ) < (m : ℚ) := by exact_mod_cast h
    linarith

theorem charBand_unitQ (k1 k2 k3 : Nat) :
    charBand (unitQ k1) (unitQ k2) (unitQ k3) = charBandN k1 k2 k3 := by
  have e1 : (unitQ k1 < 3 / 10) ↔ k1 < 3 := by
    have hc : ((3 : Nat) : ℚ) = (3 : ℚ) := by norm_num
    have h := unitQ_lt_div_ten k1 3 (by omega)
    rw [hc] at h
    exact h
  have e2 : (unitQ k2 < 5 / 10) ↔ k2 < 5 := by
    have hc : ((5 : Nat) : ℚ) = (5 : ℚ) := by norm_num
    have h := unitQ_lt_div_ten k2 5 (by omega)
    rw [hc] at h
    exact h
  have e3 : (unitQ k3 < 7 / 10) ↔ k3 < 7 := by
    have hc : ((7 : Nat) : ℚ) = (7 : ℚ) := by norm_num
    have h := unitQ_lt_div_ten k3 7 (by omega)
    rw [hc] at h
    exact h
  unfold charBand charBandN
  simp only [e1, e2, e3]

theorem bandTripleCount_nat (b : Nat) :
    bandTripleCount b = (allTenTriples.filter
      (fun t => charBandN t.1 t.2.1 t.2.2 == b)).length := by
  unfold bandTripleCount
  congr 1
  apply List.filter_congr
  intro t ht
  rw [charBand_unitQ]

theorem bandTripleCount_zero : bandTripleCount 0 = 300 := by
  rw [bandTripleCount_nat]
  decide

theorem bandTripleCount_one : bandTripleCount 1 = 350 := by
  rw [bandTripleCount_nat]
  decide

theorem bandTripleCount_two : bandTripleCount 2 = 245 := by
  rw [bandTripleCount_nat]
  decide

theorem bandTripleCount_three : bandTripleCount 3 = 105 := by
  rw [bandTripleCount_nat]
  decide

/-- C3 counterexample: each elif of generate_unicode_string draws a fresh
random(), so the Latin-1 band is selected with probability 35 percent (350 of
the 1000 equiprobable draw triples), not the claimed 20 percent. -/
theorem unicode_band_split_not_as_claimed :
    bandTripleCount 1 = 350 ∧ bandTripleCount 1 ≠ 200 := by
  rw [bandTripleCount_one]
  exact ⟨rfl, by omega⟩

theorem genUnicodeChar_ascii (st : PyState)
    (h1 : (randomUnit st).1 < 3 / 10) :
    (genUnicodeChar st).1 = (randint 32 126 (randomUnit st).2).1.toNat := by
  simp only [genUnicodeChar]
  rw [if_pos h1]

theorem genUnicodeChar_latin (st : PyState)
    (h1 : ¬ ((randomUnit st).1 < 3 / 10))
    (h2 : (randomUnit (randomUnit st).2).1 < 5 / 10) :
    (genUnicodeChar st).1 =
      (randint 128 255 (randomUnit (randomUnit st).2).2).1.toNat := by
  simp only [genUnicodeChar]
  rw [if_neg h1, if_pos h2]

theorem genUnicodeChar_bmp (st : PyState)
    (h1 : ¬ ((randomUnit st).1 < 3 / 10))
    (h2 : ¬ ((randomUnit (randomUnit st).2).1 < 5 / 10))
    (h3 : (randomUnit (randomUnit (randomUnit st).2).2).1 < 7 / 10) :
    (genUnicodeChar st).1 =
      (randint 256 65535
        (randomUnit (randomUnit (randomUnit st).2).2).2).1.toNat := by
  simp only [genUnicodeChar]
  rw [if_neg h1, if_neg h2, if_pos h3]

theorem genUnicodeChar_smp (st : PyState)
    (h1 : ¬ ((randomUnit st).1 < 3 / 10))
    (h2 : ¬ ((randomUnit (randomUnit st).2).1 < 5 / 10))
    (h3 : ¬ ((randomUnit (randomUnit (randomUnit st).2).2).1 < 7 / 10)) :
    (genUnicodeChar st).1 =
      (randint 65536 1114111
        (randomUnit (randomUnit (randomUnit st).2).2).2).1.toNat := by
  simp only [genUnicodeChar]
  rw [if_neg h1, if_neg h2, if_neg h3]

theorem unicode_band_link (s : PyState) :
    bandLo (charBand (randomUnit s).1 (randomUnit (randomUnit s).2).1
        (randomUnit (randomUnit (randomUnit s).2).2).1) ≤
      (genUnicodeChar s).1 ∧
    (genUnicodeChar s).1 ≤
      bandHi (charBand (randomUnit s).1 (randomUnit (randomUnit s).2).1
        (randomUnit (randomUnit (randomUnit s).2).2).1) := by
  simp only [genUnicodeChar, charBand]
  split_ifs
  · exact ⟨(randint_toNat_bounds 32 126 (by decide) (by decide) _).1,
      (randint_toNat_bounds 32 126 (by decide) (by decide) _).2⟩
  · exact ⟨(randint_toNat_bounds 128 255 (by decide) (by decide) _).1,
      (randint_toNat_bounds 128 255 (by decide) (by decide) _).2⟩
  · exact ⟨(randint_toNat_bounds 256 65535 (by decide) (by decide) _).1,
      (randint_toNat_bounds 256 65535 (by decide) (by decide) _).2⟩
  · exact ⟨(randint_toNat_bounds 65536 1114111 (by decide) (by decide) _).1,
      (randint_toNat_bounds 65536 1114111 (by decide) (by decide) _).2⟩

theorem unicode_band_surj :
    ∀ b : Nat, b ≤ 3 → ∀ c : Nat, bandLo b ≤ c → c ≤ bandHi b →
      ∃ s : PyState, (genUnicodeChar s).1 = c := by
  intro b hb c hlo chi
  match b, hb with
  | 0, _ =>
    simp only [bandLo, bandHi] at hlo chi
    refine ⟨⟨fun i => [0, c - 32].getD i 0, 0, fun _ => 0, 0⟩, ?_⟩
    set st : PyState := ⟨fun i => [0, c - 32].getD i 0, 0, fun _ => 0, 0⟩
      with hst
    have e1 : (randomUnit st).1 = ((0 : Nat) : ℚ) / 10 := rfl
    have h1 : (randomUnit st).1 < 3 / 10 := by
      rw [e1]
      norm_num
    rw [genUnicodeChar_ascii st h1]
    have e4 : (randint 32 126 (randomUnit st).2).1 =
        32 + (((c - 32) % 95 : Nat) : Int) := rfl
    rw [e4]
    omega
  | 1, _ =>
    simp only [bandLo, bandHi] at hlo chi
    refine ⟨⟨fun i => [5, 0, c - 128].getD i 0, 0, fun _ => 0, 0⟩, ?_⟩
    set st : PyState := ⟨fun i => [5, 0, c - 128].getD i 0, 0, fun _ => 0, 0⟩
      with hst
    have e1 : (randomUnit st).1 = ((5 : Nat) : ℚ) / 10 := rfl
    have e2 : (randomUnit (randomUnit st).2).1 = ((0 : Nat) : ℚ) / 10 := rfl
    have h1 : ¬ ((randomUnit st).1 < 3 / 10) := by
      rw [e1]
      norm_num
    have h2 : (randomUnit (randomUnit st).2).1 < 5 / 10 := by
      rw [e2]
      norm_num
    rw [genUnicodeChar_latin st h1 h2]
    have e4 : (randint 128 255 (randomUnit (randomUnit st).2).2).1 =
        128 + (((c - 128) % 128 : Nat) : Int) := rfl
    rw [e4]
    omega
  | 2, _ =>
    simp only [bandLo, bandHi] at hlo chi
    refine ⟨⟨fun i => [5, 5, 0, c - 256].getD i 0, 0, fun _ => 0, 0⟩, ?_⟩
    set st : PyState :=
      ⟨fun i => [5, 5, 0, c - 256].getD i 0, 0, fun _ => 0, 0⟩ with hst
    have e1 : (randomUnit st).1 = ((5 : Nat) : ℚ) / 10 := rfl
    have e2 : (randomUnit (randomUnit st).2).1 = ((5 : Nat) : ℚ) / 10 := rfl
    have e3 : (randomUnit (randomUnit (randomUnit st).2).2).1 =
        ((0 : Nat) : ℚ) / 10 := rfl
    have h1 : ¬ ((randomUnit st).1 < 3 / 10) := by
      rw [e1]
      norm_num
    have h2 : ¬ ((randomUnit (randomUnit st).2).1 < 5 / 10) := by
      rw [e2]
      norm_num
    have h3 : (randomUnit (randomUnit (randomUnit st).2).2).1 < 7 / 10 := by
      rw [e3]
      norm_num
    rw [genUnicodeChar_bmp st h1 h2 h3]
    have e4 : (randint 256 65535
        (randomUnit (randomUnit (randomUnit st).2).2).2).1 =
        256 + (((c - 256) % 65280 : Nat) : Int) := rfl
    rw [e4]
    omega
  | 3, _ =>
    simp only [bandLo, bandHi] at hlo chi
    obtain ⟨x, rfl⟩ : ∃ x, c = 65536 + x := ⟨c - 65536, by omega⟩
    refine ⟨⟨fun i => [5, 5, 9, x].getD i 0, 0, fun _ => 0, 0⟩, ?_⟩
    set st : PyState :=
      ⟨fun i => [5, 5, 9, x].getD i 0, 0, fun _ => 0, 0⟩ with hst
    have e1 : (randomUnit st).1 = ((5 : Nat) : ℚ) / 10 := rfl
    have e2 : (randomUnit (randomUnit st).2).1 = ((5 : Nat) : ℚ) / 10 := rfl
    have e3 : (randomUnit (randomUnit (randomUnit st).2).2).1 =
        ((9 : Nat) : ℚ) / 10 := rfl
    have h1 : ¬ ((randomUnit st).1 < 3 / 10) := by
      rw [e1]
      norm_num
    have h2 : ¬ ((randomUnit (randomUnit st).2).1 < 5 / 10) := by
      rw [e2]
      norm_num
    have h3 : ¬ ((randomUnit (randomUnit (randomUnit st).2).2).1 < 7 / 10) := by
      rw [e3]
      norm_num
    rw [genUnicodeChar_smp st h1 h2 h3]
    have e4 : (randint 65536 1114111
        (randomUnit (randomUnit (randomUnit st).2).2).2).1 =
        65536 + ((x % 1048576 : Nat) : Int) := rfl
    rw [e4]
    omega


/-- C3 (amended): the per-character band probabilities are 30 percent ASCII,
35 percent Latin-1, 24.5 percent BMP and 10.5 percent Supplementary (fresh
uniform draws at each branch); the emitted code point always lies within the
selected band, and every code point of each band is reachable. -/
theorem unicode_band_split :
    (bandTripleCount 0 = 300 ∧ bandTripleCount 1 = 350 ∧
     bandTripleCount 2 = 245 ∧ bandTripleCount 3 = 105) ∧
    (∀ s : PyState,
      bandLo (charBand (randomUnit s).1 (randomUnit (randomUnit s).2).1
          (randomUnit (randomUnit (randomUnit s).2).2).1) ≤
        (genUnicodeChar s).1 ∧
      (genUnicodeChar s).1 ≤
        bandHi (charBand (randomUnit s).1 (randomUnit (randomUnit s).2).1
          (randomUnit (randomUnit (randomUnit s).2).2).1)) ∧
    (∀ b : Nat, b ≤ 3 → ∀ c : Nat, bandLo b ≤ c → c ≤ bandHi b →
      ∃ s : PyState, (genUnicodeChar s).1 = c) :=
  ⟨⟨bandTripleCount_zero, bandTripleCount_one, bandTripleCount_two,
    bandTripleCount_three⟩, unicode_band_link, unicode_band_surj⟩

/-- Witness for C3 (amended): band 1 (Latin-1), code point 200. -/
theorem unicode_band_split_witness :
    (1 : Nat) ≤ 3 ∧ bandLo 1 ≤ 200 ∧ (200 : Nat) ≤ bandHi 1 ∧
      ∃ s : PyState, (genUnicodeChar s).1 = 200 :=
  ⟨by decide, by decide, by decide,
    unicode_band_split.2.2 1 (by decide) 200 (by decide) (by decide)⟩

/-- C4: the BMP branch of generate_unicode_string draws uniformly from
0x100-0xFFFF, which contains the surrogate range 0xD800-0xDFFF: at this
concrete seed stream the generated one-character string is exactly the lone
surrogate U+D800 (55296), so the bands do not exclude surrogate code
points. -/
theorem unicode_string_produces_surrogate :
    (generate_unicode_string 1
      ⟨fun i => [5, 5, 0, 55040].getD i 0, 0, fun _ => 0, 0⟩).1 = [55296] ∧
    ∀ cp ∈ (generate_unicode_string 1
      ⟨fun i => [5, 5, 0, 55040].getD i 0, 0, fun _ => 0, 0⟩).1,
      55296 ≤ cp ∧ cp ≤ 57343 := by
  set st : PyState := ⟨fun i => [5, 5, 0, 55040].getD i 0, 0, fun _ => 0, 0⟩
    with hst
  have e1 : (randomUnit st).1 = ((5 : Nat) : ℚ) / 10 := rfl
  have e2 : (randomUnit (randomUnit st).2).1 = ((5 : Nat) : ℚ) / 10 := rfl
  have e3 : (randomUnit (randomUnit (randomUnit st).2).2).1 =
      ((0 : Nat) : ℚ) / 10 := rfl
  have h1 : ¬ ((randomUnit st).1 < 3 / 10) := by
    rw [e1]
    norm_num
  have h2 : ¬ ((randomUnit (randomUnit st).2).1 < 5 / 10) := by
    rw [e2]
    norm_num
  have h3 : (randomUnit (randomUnit (randomUnit st).2).2).1 < 7 / 10 := by
    rw [e3]
    norm_num
  have hchar : (genUnicodeChar st).1 = 55296 := by
    rw [genUnicodeChar_bmp st h1 h2 h3]
    have e4 : (randint 256 65535
        (randomUnit (randomUnit (randomUnit st).2).2).2).1 =
        256 + ((55040 % 65280 : Nat) : Int) := rfl
    rw [e4]
    decide
  have hstr : (generate_unicode_string 1 st).1 =
      [(genUnicodeChar st).1] := by
    simp [generate_unicode_string, genUnicodeChars]
  rw [hstr, hchar]
  exact ⟨rfl, by simp⟩

/-- The characters random.choices draws for a given stream position. -/
def pyChoicesVal [Inhabited α] (l : List α) : Nat → (Nat → Nat) → Nat → List α
  | 0, _, _ => []
  | k + 1, r, ri => l.getD (r ri % l.length) default :: pyChoicesVal l k r (ri + 1)

theorem pyChoices_state [Inhabited α] (l : List α) (k : Nat)
    (r : Nat → Nat) (ri : Nat) (c : Nat → Int) (ci : Nat) :
    pyChoices l k ⟨r, ri, c, ci⟩ =
      (pyChoicesVal l k r ri, ⟨r, ri + k, c, ci⟩) := by
  induction k generalizing ri with
  | zero => rfl
  | succ m ih =>
    simp only [pyChoices, pyChoicesVal, choice, nextNat, ih]
    have : ri + 1 + m = ri + (m + 1) := by omega
    rw [this]

/-- The string value generate_string produces from a given stream position. -/
def pyStrVal (L : Int) (r : Nat → Nat) (ri : Nat) : PyStr :=
  if L = 0 then [] else pyChoicesVal stringPalette L.toNat r ri

/-- The number of draws generate_string consumes. -/
def gsAdv (L : Int) : Nat := if L = 0 then 0 else L.toNat

theorem generate_string_state (L : Int) (r : Nat → Nat) (ri : Nat)
    (c : Nat → Int) (ci : Nat) :
    generate_string L ⟨r, ri, c, ci⟩ =
      (pyStrVal L r ri, ⟨r, ri + gsAdv L, c, ci⟩) := by
  unfold generate_string pyStrVal gsAdv
  split_ifs with h
  · simp
  · exact pyChoices_state _ _ _ _ _ _

theorem now_state (r : Nat → Nat) (ri : Nat) (c : Nat → Int) (ci : Nat) :
    now ⟨r, ri, c, ci⟩ = (c ci, ⟨r, ri, c, ci + 1⟩) := rfl

theorem choice_state [Inhabited α] (l : List α) (r : Nat → Nat) (ri : Nat)
    (c : Nat → Int) (ci : Nat) :
    choice l ⟨r, ri, c, ci⟩ =
      (l.getD (r ri % l.length) default, ⟨r, ri + 1, c, ci⟩) := rfl

theorem randint_state (a b : Int) (r : Nat → Nat) (ri : Nat)
    (c : Nat → Int) (ci : Nat) :
    randint a b ⟨r, ri, c, ci⟩ =
      (a + ((r ri % (b - a + 1).toNat : Nat) : Int), ⟨r, ri + 1, c, ci⟩) := rfl

theorem goLog_clock (r : Nat → Nat) (c1 c2 : Nat → Int) :
    ∀ (k ri ci : Nat), (∀ i < k, c1 (ci + i) = c2 (ci + i)) →
      (goLog k ⟨r, ri, c1, ci⟩).1 = (goLog k ⟨r, ri, c2, ci⟩).1 := by
  intro k
  induction k with
  | zero => intro ri ci hagree; rfl
  | succ m ih =>
    intro ri ci hagree
    have hts : c1 ci = c2 ci := by
      have := hagree 0 (by omega)
      simpa using this
    simp only [goLog, now_state, choice_state, randint_state,
      generate_string_state, hts]
    congr 1
    exact ih _ _ (fun i hi => by
      have := hagree (i + 1) (by omega)
      have he : ci + (i + 1) = ci + 1 + i := by omega
      rw [he] at this
      exact this)

/-- C1 counterexample: with the same seed stream but different wall clocks
(as in two independent runs), one-record log datasets differ: the record
embeds the datetime.now() reading. -/
theorem log_data_differs_across_clocks :
    (generate_log_data 1 ⟨fun _ => 0, 0, fun _ => 0, 0⟩).1 ≠
      (generate_log_data 1 ⟨fun _ => 0, 0, fun _ => 1, 0⟩).1 := by
  decide

theorem jsonRemoveMatch_spec (k : String) (v : JValue) :
    ∀ (ys zs : List (String × JValue)), jsonRemoveMatch k v ys = some zs →
      ∃ v2, jsonEquiv v v2 = true ∧ ys.Perm ((k, v2) :: zs) := by
  intro ys
  induction ys with
  | nil => intro zs h; simp [jsonRemoveMatch] at h
  | cons p rest ih =>
    intro zs h
    obtain ⟨k2, v2⟩ := p
    simp only [jsonRemoveMatch] at h
    by_cases hc : (k == k2 && jsonEquiv v v2) = true
    · rw [if_pos hc] at h
      rw [Bool.and_eq_true] at hc
      obtain ⟨hk, hv⟩ := hc
      have hkeq : k = k2 := eq_of_beq hk
      subst hkeq
      injection h with h
      subst h
      exact ⟨v2, hv, List.Perm.refl _⟩
    · rw [if_neg hc] at h
      rcases hrm : jsonRemoveMatch k v rest with _ | zs2
      · rw [hrm] at h; simp at h
      · rw [hrm] at h
        simp only [Option.map_some', Option.some.injEq] at h
        subst h
        obtain ⟨w, hw, hperm⟩ := ih zs2 hrm
        exact ⟨w, hw, List.Perm.trans (hperm.cons _) (List.Perm.swap _ _ _)⟩

theorem jsonEquivPairs_spec :
    ∀ (xs ys : List (String × JValue)), jsonEquivPairs xs ys = true →
      ∃ ys2, ys.Perm ys2 ∧
        List.Forall₂ (fun p q : String × JValue =>
          p.1 = q.1 ∧ jsonEquiv p.2 q.2 = true) xs ys2 := by
  intro xs
  induction xs with
  | nil =>
    intro ys h
    simp only [jsonEquivPairs, List.isEmpty_iff] at h
    subst h
    exact ⟨[], List.Perm.refl _, List.Forall₂.nil⟩
  | cons p rest ih =>
    intro ys h
    obtain ⟨k, v⟩ := p
    simp only [jsonEquivPairs] at h
    rcases hrm : jsonRemoveMatch k v ys with _ | zs
    · rw [hrm] at h; simp at h
    · rw [hrm] at h
      obtain ⟨v2, hv2, hperm⟩ := jsonRemoveMatch_spec k v ys zs hrm
      obtain ⟨zs2, hzperm, hf2⟩ := ih zs h
      exact ⟨(k, v2) :: zs2, hperm.trans (hzperm.cons _),
        List.Forall₂.cons ⟨rfl, hv2⟩ hf2⟩

def renderedList : List String → String
  | [] => ""
  | [s] => s
  | s :: t :: ts => s ++ ", " ++ renderedList (t :: ts)

def renderedPairs : List (String × String) → String
  | [] => ""
  | [(k, s)] => renderKey k ++ ": " ++ s
  | (k, s) :: q :: ps => renderKey k ++ ": " ++ s ++ ", " ++ renderedPairs (q :: ps)

theorem dumpsList_eq_rendered (b : Bool) :
    ∀ l, dumpsList b l = renderedList (l.map (dumps b)) := by
  intro l
  induction l with
  | nil => simp [dumpsList, renderedList]
  | cons x t ih =>
    cases t with
    | nil => simp [dumpsList, renderedList]
    | cons y t2 => simp [dumpsList, renderedList, ih]

theorem dumpsPairs_eq_rendered (b : Bool) :
    ∀ l, dumpsPairs b l =
      renderedPairs (l.map (fun p => (p.1, dumps b p.2))) := by
  intro l
  induction l with
  | nil => simp [dumpsPairs, renderedPairs]
  | cons p t ih =>
    obtain ⟨k, v⟩ := p
    cases t with
    | nil => simp [dumpsPairs, renderedPairs]
    | cons q t2 =>
      obtain ⟨k2, v2⟩ := q
      simp [dumpsPairs, renderedPairs, ih]

theorem forall2_dumps_map_eq :
    ∀ (xs ys : List (String × JValue)),
      List.Forall₂ (fun p q : String × JValue =>
        p.1 = q.1 ∧ jsonEquiv p.2 q.2 = true) xs ys →
      (∀ p ∈ xs, ∀ w, jsonEquiv p.2 w = true →
        dumps true p.2 = dumps true w) →
      xs.map (fun p => (p.1, dumps true p.2)) =
        ys.map (fun p => (p.1, dumps true p.2)) := by
  intro xs ys hf
  induction hf with
  | nil => intro _; rfl
  | cons hpq hrest ih =>
    rename_i a b l1 l2
    intro hih
    have h1 : (a.1, dumps true a.2) = (b.1, dumps true b.2) := by
      obtain ⟨hk, hv⟩ := hpq
      rw [hk, hih a (List.mem_cons_self _ _) b.2 hv]
    simp only [List.map_cons, h1,
      ih (fun p hp w hw => hih p (List.mem_cons_of_mem _ hp) w hw)]

theorem strict_key_pairwise (l : List (String × JValue))
    (hnd : (l.map Prod.fst).Nodup) :
    ((List.insertionSort keyLE l).map
        (fun p => (p.1, dumps true p.2))).Pairwise
      (fun a b : String × String => a.1 < b.1) := by
  have hsorted : List.Sorted keyLE (List.insertionSort keyLE l) :=
    List.sorted_insertionSort keyLE l
  have hnd2 : ((List.insertionSort keyLE l).map Prod.fst).Nodup :=
    (((List.perm_insertionSort keyLE l).map Prod.fst).symm).nodup hnd
  have hle : ((List.insertionSort keyLE l).map
      (fun p => (p.1, dumps true p.2))).Pairwise
        (fun a b : String × String => a.1 ≤ b.1) := by
    rw [List.pairwise_map]
    exact hsorted
  have hne : ((List.insertionSort keyLE l).map
      (fun p => (p.1, dumps true p.2))).Pairwise
        (fun a b : String × String => a.1 ≠ b.1) := by
    rw [List.pairwise_map]
    rw [List.Nodup, List.pairwise_map] at hnd2
    exact hnd2
  exact (hle.and hne).imp (fun h => lt_of_le_of_ne h.1 h.2)

theorem sorted_dumps_map_eq (xs ys : List (String × JValue))
    (hnx : (xs.map Prod.fst).Nodup) (hny : (ys.map Prod.fst).Nodup)
    (heq : jsonEquivPairs xs ys = true)
    (hih : ∀ p ∈ xs, ∀ w, jsonEquiv p.2 w = true →
      dumps true p.2 = dumps true w) :
    (List.insertionSort keyLE xs).map (fun p => (p.1, dumps true p.2)) =
      (List.insertionSort keyLE ys).map (fun p => (p.1, dumps true p.2)) := by
  obtain ⟨ys2, hperm, hf2⟩ := jsonEquivPairs_spec xs ys heq
  have hmap : xs.map (fun p => (p.1, dumps true p.2)) =
      ys2.map (fun p => (p.1, dumps true p.2)) :=
    forall2_dumps_map_eq xs ys2 hf2 hih
  have hAperm : ((List.insertionSort keyLE xs).map
      (fun p => (p.1, dumps true p.2))).Perm
        ((List.insertionSort keyLE ys).map
          (fun p => (p.1, dumps true p.2))) := by
    refine ((List.perm_insertionSort keyLE xs).map _).trans ?_
    rw [hmap]
    exact ((hperm.map _).symm).trans
      (((List.perm_insertionSort keyLE ys).map _).symm)
  haveI : IsAntisymm (String × String) (fun a b => a.1 < b.1) :=
    ⟨fun a b h1 h2 => absurd h2 (lt_asymm h1)⟩
  exact List.eq_of_perm_of_sorted hAperm
    (strict_key_pairwise xs hnx) (strict_key_pairwise ys hny)

theorem jvalue_sizeOf_pos (a : JValue) : 0 < sizeOf a := by
  cases a <;> simp_arith

theorem dumpsList_map_eq_of_equiv :
    ∀ (xs ys : List JValue), jsonEquivList xs ys = true →
      (∀ x ∈ xs, ∀ w, jsonEquiv x w = true → dumps true x = dumps true w) →
      xs.map (dumps true) = ys.map (dumps true) := by
  intro xs
  induction xs with
  | nil =>
    intro ys heq _
    cases ys with
    | nil => rfl
    | cons y t => simp [jsonEquivList] at heq
  | cons x t ih =>
    intro ys heq hih
    cases ys with
    | nil => simp [jsonEquivList] at heq
    | cons y u =>
      simp only [jsonEquivList, Bool.and_eq_true] at heq
      obtain ⟨h1, h2⟩ := heq
      simp only [List.map_cons, hih x (List.mem_cons_self _ _) y h1,
        ih u h2 (fun p hp w hw => hih p (List.mem_cons_of_mem _ hp) w hw)]

theorem dumps_eq_of_equiv_aux :
    ∀ (n : Nat) (a b : JValue), sizeOf a ≤ n → jsonEquiv a b = true →
      dumps true a = dumps true b := by
  intro n
  induction n with
  | zero =>
    intro a b hsz _
    have := jvalue_sizeOf_pos a
    omega
  | succ m ih =>
    intro a b hsz heq
    cases a with
    | str s => cases b <;> simp [jsonEquiv] at heq <;> (subst heq; rfl)
    | int z => cases b <;> simp [jsonEquiv] at heq <;> (subst heq; rfl)
    | float q => cases b <;> simp [jsonEquiv] at heq <;> (subst heq; rfl)
    | bool v => cases b <;> simp [jsonEquiv] at heq <;> (subst heq; rfl)
    | null => cases b <;> simp [jsonEquiv] at heq <;> rfl
    | arr xs =>
      cases b with
      | arr ys =>
        simp only [jsonEquiv] at heq
        have hlist : xs.map (dumps true) = ys.map (dumps true) := by
          refine dumpsList_map_eq_of_equiv xs ys heq ?_
          intro x hx w hw
          refine ih x w ?_ hw
          have h1 : sizeOf x < sizeOf xs := List.sizeOf_lt_of_mem hx
          simp_arith at hsz
          omega
        simp only [dumps, dumpsList_eq_rendered, hlist]
      | str _ => simp [jsonEquiv] at heq
      | int _ => simp [jsonEquiv] at heq
      | float _ => simp [jsonEquiv] at heq
      | bool _ => simp [jsonEquiv] at heq
      | null => simp [jsonEquiv] at heq
      | obj _ => simp [jsonEquiv] at heq
    | obj xs =>
      cases b with
      | obj ys =>
        simp only [jsonEquiv, Bool.and_eq_true, decide_eq_true_eq] at heq
        obtain ⟨⟨hnx, hny⟩, hpairs⟩ := heq
        have hmap := sorted_dumps_map_eq xs ys hnx hny hpairs ?_
        · simp only [dumps, if_true, dumpsPairs_eq_rendered, hmap]
        · intro p hp w hw
          refine ih p.2 w ?_ hw
          have h1 : sizeOf p < sizeOf xs := List.sizeOf_lt_of_mem hp
          have h2 : sizeOf p.2 ≤ sizeOf p := by
            obtain ⟨pk, pv⟩ := p
            simp_arith
          simp_arith at hsz
          omega
      | str _ => simp [jsonEquiv] at heq
      | int _ => simp [jsonEquiv] at heq
      | float _ => simp [jsonEquiv] at heq
      | bool _ => simp [jsonEquiv] at heq
      | null => simp [jsonEquiv] at heq
      | arr _ => simp [jsonEquiv] at heq

theorem dumps_eq_of_jsonEquiv (a b : JValue) (h : jsonEquiv a b = true) :
    dumps true a = dumps true b :=
  dumps_eq_of_equiv_aux (sizeOf a) a b (le_refl _) h

theorem shaRound_length (st : List Nat) (kw : Nat × Nat)
    (h : st.length = 8) : (shaRound st kw).length = 8 := by
  unfold shaRound
  split
  · simp
  · exact h

theorem foldl_shaRound_length :
    ∀ (l : List (Nat × Nat)) (st : List Nat), st.length = 8 →
      (l.foldl shaRound st).length = 8 := by
  intro l
  induction l with
  | nil => intro st h; exact h
  | cons kw t ih =>
    intro st h
    exact ih (shaRound st kw) (shaRound_length st kw h)

theorem processChunk_length (H chunk : List Nat) (h : H.length = 8) :
    (processChunk H chunk).length = 8 := by
  unfold processChunk
  have h2 := foldl_shaRound_length (K256.zip (buildSchedule 48 (bytesToWords chunk))) H h
  simp [List.length_zip, h, h2]

theorem foldl_processChunk_length :
    ∀ (l : List (List Nat)) (H : List Nat), H.length = 8 →
      (l.foldl processChunk H).length = 8 := by
  intro l
  induction l with
  | nil => intro H h; exact h
  | cons c t ih =>
    intro H h
    exact ih (processChunk H c) (processChunk_length H c h)

theorem sha256_length (msg : List Nat) : (sha256 msg).length = 8 :=
  foldl_processChunk_length (chunks64 (shaPad msg)) H256 rfl

theorem hex4_length (n : Nat) : (hex4 n).length = 4 := rfl

theorem hex8_length (n : Nat) : (hex8 n).length = 8 := by
  simp [hex8, String.length_append, hex4_length]

theorem foldl_append_length :
    ∀ (l : List String) (acc : String),
      (l.foldl (· ++ ·) acc).length =
        acc.length + (l.map String.length).sum := by
  intro l
  induction l with
  | nil => intro acc; simp
  | cons s t ih =>
    intro acc
    simp only [List.foldl_cons, ih, List.map_cons, List.sum_cons,
      String.length_append]
    omega

theorem sha256hex_length (text : String) : (sha256hex text).length = 64 := by
  unfold sha256hex String.join
  rw [foldl_append_length]
  have h1 : ((sha256 (strBytes text)).map hex8).map String.length =
      (sha256 (strBytes text)).map (fun _ => 8) := by
    rw [List.map_map]
    exact List.map_congr_left (fun n _ => hex8_length n)
  have h2 : ∀ l : List Nat, (l.map (fun _ => (8 : Nat))).sum = 8 * l.length := by
    intro l
    induction l with
    | nil => rfl
    | cons a t ih => simp [ih]; omega
  rw [h1, h2, sha256_length]
  rfl

/-- C6: the content hash is the 256-bit SHA digest of the dataset serialized
with object keys sorted (json.dumps(data, sort_keys=True)): the data_hash
field of generate_metadata is exactly that digest, the digest has 64
hexadecimal characters (256 bits), and any two datasets of structurally
identical content (same key-value pairs per object, any insertion order)
receive equal hashes. -/
theorem content_hash_canonical :
    (∀ (version python_version : PyStr) (seed : Int) (data : List Record)
        (gp : JValue) (s : PyState),
      pyGet "data_hash" (generate_metadata version seed python_version data gp s).1 =
        some (JValue.str (pys (sha256hex
          (dumps true (JValue.arr (data.map JValue.obj))))))) ∧
    (∀ text : String, (sha256hex text).length = 64) ∧
    (∀ d1 d2 : List Record,
      jsonEquiv (JValue.arr (d1.map JValue.obj))
        (JValue.arr (d2.map JValue.obj)) = true →
      dataHash d1 = dataHash d2) := by
  refine ⟨?_, sha256hex_length, ?_⟩
  · intro version python_version seed data gp s
    rcases h1 : now s with ⟨ga, s1⟩
    rcases h2 : now s1 with ⟨gt, s2⟩
    simp [generate_metadata, h1, h2, pyGet, dataHash]
  · intro d1 d2 h
    exact congrArg sha256hex (dumps_eq_of_jsonEquiv _ _ h)

/-- Witness for C6: two one-record datasets whose record lists the same two
fields in opposite insertion orders are structurally equivalent and receive
the same content hash. -/
theorem content_hash_canonical_witness :
    jsonEquiv
        (JValue.arr ([[("a", JValue.int 1), ("b", JValue.null)]].map JValue.obj))
        (JValue.arr ([[("b", JValue.null), ("a", JValue.int 1)]].map JValue.obj))
      = true ∧
    dataHash [[("a", JValue.int 1), ("b", JValue.null)]] =
      dataHash [[("b", JValue.null), ("a", JValue.int 1)]] := by
  have he : jsonEquiv
      (JValue.arr ([[("a", JValue.int 1), ("b", JValue.null)]].map JValue.obj))
      (JValue.arr ([[("b", JValue.null), ("a", JValue.int 1)]].map JValue.obj))
      = true := by
    simp [jsonEquiv, jsonEquivList, jsonEquivPairs, jsonRemoveMatch]
  exact ⟨he, content_hash_canonical.2.2 _ _ he⟩

/-- Replace the wall clock of a state, keeping the random stream, its
position, and the clock position. -/
def swapClock (c : Nat → Int) (s : PyState) : PyState :=
  ⟨s.rand, s.ridx, c, s.cidx⟩

/-- A draw function is clock-free: it commutes with clock replacement and
consumes no clock reading. -/
def SwapC (f : PyState → α × PyState) : Prop :=
  ∀ (c : Nat → Int) (s : PyState),
    f (swapClock c s) = ((f s).1, swapClock c (f s).2) ∧
    (f s).2.cidx = s.cidx

theorem swapClock_self (s : PyState) : swapClock s.clock s = s := rfl

theorem swapc_clock {f : PyState → α × PyState} (hf : SwapC f) (s : PyState) :
    (f s).2.clock = s.clock := by
  have h := (hf s.clock s).1
  rw [swapClock_self] at h
  have h2 := congrArg (fun p : α × PyState => p.2.clock) h
  simpa [swapClock] using h2

theorem choice_swapc [Inhabited α] (l : List α) : SwapC (choice l) :=
  fun c s => ⟨rfl, rfl⟩

theorem randint_swapc (a b : Int) : SwapC (randint a b) :=
  fun c s => ⟨rfl, rfl⟩

theorem randomUnit_swapc : SwapC randomUnit :=
  fun c s => ⟨rfl, rfl⟩

theorem uniformQ_swapc (a b : ℚ) : SwapC (uniformQ a b) :=
  fun c s => ⟨rfl, rfl⟩

theorem generate_integer_swapc (a b : Int) : SwapC (generate_integer a b) :=
  fun c s => ⟨rfl, rfl⟩

theorem generate_float_swapc (a b : ℚ) : SwapC (generate_float a b) :=
  fun c s => ⟨rfl, rfl⟩

theorem generate_boolean_swapc : SwapC generate_boolean :=
  fun c s => ⟨rfl, rfl⟩

theorem now_swap (c : Nat → Int) (s : PyState) :
    now (swapClock c s) = (c s.cidx, swapClock c (now s).2) := rfl

theorem pyChoices_swapc [Inhabited α] (l : List α) :
    ∀ k : Nat, SwapC (pyChoices l k) := by
  intro k
  induction k with
  | zero => exact fun c s => ⟨rfl, rfl⟩
  | succ m ih =>
    intro c s
    rcases h1 : choice l s with ⟨a, s1⟩
    have h1sw : choice l (swapClock c s) = (a, swapClock c s1) := by
      rw [(choice_swapc l c s).1, h1]
    rcases h2 : pyChoices l m s1 with ⟨rest, s2⟩
    have h2sw : pyChoices l m (swapClock c s1) = (rest, swapClock c s2) := by
      rw [(ih c s1).1, h2]
    constructor
    · simp only [pyChoices, h1, h1sw, h2, h2sw]
    · have e1 : s1.cidx = s.cidx := by
        have := (choice_swapc l c s).2
        rw [h1] at this
        exact this
      have e2 : s2.cidx = s1.cidx := by
        have := (ih c s1).2
        rw [h2] at this
        exact this
      simp only [pyChoices, h1, h2]
      omega

theorem generate_string_swapc (L : Int) : SwapC (generate_string L) := by
  intro c s
  rcases s with ⟨r, ri, c1, ci⟩
  constructor
  · show generate_string L ⟨r, ri, c, ci⟩ = _
    rw [generate_string_state, generate_string_state]
    rfl
  · rw [generate_string_state]

theorem genUnicodeChar_swapc : SwapC genUnicodeChar := by
  intro c s
  rcases h1 : randomUnit s with ⟨u1, s1⟩
  have h1sw : randomUnit (swapClock c s) = (u1, swapClock c s1) := by
    rw [(randomUnit_swapc c s).1, h1]
  have e1 : s1.cidx = s.cidx := by
    have := (randomUnit_swapc c s).2
    rw [h1] at this
    exact this
  rcases h2 : randomUnit s1 with ⟨u2, s2⟩
  have h2sw : randomUnit (swapClock c s1) = (u2, swapClock c s2) := by
    rw [(randomUnit_swapc c s1).1, h2]
  have e2 : s2.cidx = s1.cidx := by
    have := (randomUnit_swapc c s1).2
    rw [h2] at this
    exact this
  rcases h3 : randomUnit s2 with ⟨u3, s3⟩
  have h3sw : randomUnit (swapClock c s2) = (u3, swapClock c s3) := by
    rw [(randomUnit_swapc c s2).1, h3]
  have e3 : s3.cidx = s2.cidx := by
    have := (randomUnit_swapc c s2).2
    rw [h3] at this
    exact this
  by_cases hc1 : u1 < 3 / 10
  · rcases h4 : randint 32 126 s1 with ⟨cv, s4⟩
    have h4sw : randint 32 126 (swapClock c s1) = (cv, swapClock c s4) := by
      rw [(randint_swapc 32 126 c s1).1, h4]
    have e4 : s4.cidx = s1.cidx := by
      have := (randint_swapc 32 126 c s1).2
      rw [h4] at this
      exact this
    constructor
    · simp only [genUnicodeChar, h1, h1sw, if_pos hc1, h4, h4sw]
    · simp only [genUnicodeChar, h1, if_pos hc1, h4]
      omega
  · by_cases hc2 : u2 < 5 / 10
    · rcases h4 : randint 128 255 s2 with ⟨cv, s4⟩
      have h4sw : randint 128 255 (swapClock c s2) = (cv, swapClock c s4) := by
        rw [(randint_swapc 128 255 c s2).1, h4]
      have e4 : s4.cidx = s2.cidx := by
        have := (randint_swapc 128 255 c s2).2
        rw [h4] at this
        exact this
      constructor
      · simp only [genUnicodeChar, h1, h1sw, if_neg hc1, h2, h2sw,
          if_pos hc2, h4, h4sw]
      · simp only [genUnicodeChar, h1, if_neg hc1, h2, if_pos hc2, h4]
        omega
    · by_cases hc3 : u3 < 7 / 10
      · rcases h4 : randint 256 65535 s3 with ⟨cv, s4⟩
        have h4sw : randint 256 65535 (swapClock c s3) = (cv, swapClock c s4) := by
          rw [(randint_swapc 256 65535 c s3).1, h4]
        have e4 : s4.cidx = s3.cidx := by
          have := (randint_swapc 256 65535 c s3).2
          rw [h4] at this
          exact this
        constructor
        · simp only [genUnicodeChar, h1, h1sw, if_neg hc1, h2, h2sw,
            if_neg hc2, h3, h3sw, if_pos hc3, h4, h4sw]
        · simp only [genUnicodeChar, h1, if_neg hc1, h2, if_neg hc2, h3,
            if_pos hc3, h4]
          omega
      · rcases h4 : randint 65536 1114111 s3 with ⟨cv, s4⟩
        have h4sw : randint 65536 1114111 (swapClock c s3) =
            (cv, swapClock c s4) := by
          rw [(randint_swapc 65536 1114111 c s3).1, h4]
        have e4 : s4.cidx = s3.cidx := by
          have := (randint_swapc 65536 1114111 c s3).2
          rw [h4] at this
          exact this
        constructor
        · simp only [genUnicodeChar, h1, h1sw, if_neg hc1, h2, h2sw,
            if_neg hc2, h3, h3sw, if_neg hc3, h4, h4sw]
        · simp only [genUnicodeChar, h1, if_neg hc1, h2, if_neg hc2, h3,
            if_neg hc3, h4]
          omega

theorem genUnicodeChars_swapc : ∀ k : Nat, SwapC (genUnicodeChars k) := by
  intro k
  induction k with
  | zero => exact fun c s => ⟨rfl, rfl⟩
  | succ m ih =>
    intro c s
    rcases h1 : genUnicodeChar s with ⟨cv, s1⟩
    have h1sw : genUnicodeChar (swapClock c s) = (cv, swapClock c s1) := by
      rw [(genUnicodeChar_swapc c s).1, h1]
    have e1 : s1.cidx = s.cidx := by
      have := (genUnicodeChar_swapc c s).2
      rw [h1] at this
      exact this
    rcases h2 : genUnicodeChars m s1 with ⟨rest, s2⟩
    have h2sw : genUnicodeChars m (swapClock c s1) = (rest, swapClock c s2) := by
      rw [(ih c s1).1, h2]
    have e2 : s2.cidx = s1.cidx := by
      have := (ih c s1).2
      rw [h2] at this
      exact this
    constructor
    · simp only [genUnicodeChars, h1, h1sw, h2, h2sw]
    · simp only [genUnicodeChars, h1, h2]
      omega

theorem generate_unicode_string_swapc (L : Int) :
    SwapC (generate_unicode_string L) := by
  intro c s
  by_cases hL : L = 0
  · constructor
    · simp only [generate_unicode_string, if_pos hL]
    · simp only [generate_unicode_string, if_pos hL]
  · constructor
    · simp only [generate_unicode_string, if_neg hL]
      exact (genUnicodeChars_swapc L.toNat c s).1
    · simp only [generate_unicode_string, if_neg hL]
      exact (genUnicodeChars_swapc L.toNat c s).2

theorem genArrayElems_string_swapc :
    ∀ n : Nat, SwapC (genArrayElems n "string") := by
  intro n
  induction n with
  | zero =>
    intro c s
    constructor
    · simp only [genArrayElems]
    · simp only [genArrayElems]
  | succ m ih =>
    intro c s
    rcases h1 : choice STRING_LENGTHS s with ⟨len, sa⟩
    have h1sw : choice STRING_LENGTHS (swapClock c s) = (len, swapClock c sa) := by
      rw [(choice_swapc STRING_LENGTHS c s).1, h1]
    have e1 : sa.cidx = s.cidx := by
      have := (choice_swapc STRING_LENGTHS c s).2
      rw [h1] at this
      exact this
    rcases h2 : generate_string len sa with ⟨v, sb⟩
    have h2sw : generate_string len (swapClock c sa) = (v, swapClock c sb) := by
      rw [(generate_string_swapc len c sa).1, h2]
    have e2 : sb.cidx = sa.cidx := by
      have := (generate_string_swapc len c sa).2
      rw [h2] at this
      exact this
    rcases h3 : genArrayElems m "string" sb with ⟨rest, s2⟩
    have h3sw : genArrayElems m "string" (swapClock c sb) =
        (rest, swapClock c s2) := by
      rw [(ih c sb).1, h3]
    have e3 : s2.cidx = sb.cidx := by
      have := (ih c sb).2
      rw [h3] at this
      exact this
    constructor
    · simp only [genArrayElems, reduceIte, h1, h1sw, h2, h2sw, h3, h3sw]
    · simp only [genArrayElems, reduceIte, h1, h2, h3]
      omega

theorem generate_array_string_swapc :
    ∀ sz : Int, SwapC (generate_array sz "string") := by
  intro sz c s
  by_cases hz : sz = 0
  · constructor
    · simp only [generate_array, if_pos hz]
    · simp only [generate_array, if_pos hz]
  · constructor
    · simp only [generate_array, if_neg hz]
      exact (genArrayElems_string_swapc sz.toNat c s).1
    · simp only [generate_array, if_neg hz]
      exact (genArrayElems_string_swapc sz.toNat c s).2

theorem genObjectFields_swapc (n : Nat)
    (ihgen : ∀ d2 : Int, d2.toNat ≤ n → SwapC (generate_object d2)) :
    ∀ (k i : Nat) (d : Int), d.toNat ≤ n + 1 →
      SwapC (genObjectFields k i d) := by
  intro k
  induction k with
  | zero =>
    intro i d hd c s
    constructor
    · simp only [genObjectFields]
    · simp only [genObjectFields]
  | succ m ih =>
    intro i d hd c s
    rcases h1 : choice FIELD_TYPES s with ⟨ft, s1⟩
    have h1sw : choice FIELD_TYPES (swapClock c s) = (ft, swapClock c s1) := by
      rw [(choice_swapc FIELD_TYPES c s).1, h1]
    have e1 : s1.cidx = s.cidx := by
      have := (choice_swapc FIELD_TYPES c s).2
      rw [h1] at this
      exact this
    by_cases hb1 : ft = "string"
    · rcases h2 : choice STRING_LENGTHS s1 with ⟨len, sa⟩
      have h2sw : choice STRING_LENGTHS (swapClock c s1) =
          (len, swapClock c sa) := by
        rw [(choice_swapc STRING_LENGTHS c s1).1, h2]
      have e2 : sa.cidx = s1.cidx := by
        have := (choice_swapc STRING_LENGTHS c s1).2
        rw [h2] at this
        exact this
      rcases h3 : generate_string len sa with ⟨v, sb⟩
      have h3sw : generate_string len (swapClock c sa) = (v, swapClock c sb) := by
        rw [(generate_string_swapc len c sa).1, h3]
      have e3 : sb.cidx = sa.cidx := by
        have := (generate_string_swapc len c sa).2
        rw [h3] at this
        exact this
      rcases h4 : genObjectFields m (i + 1) d sb with ⟨rest, s2⟩
      have h4sw : genObjectFields m (i + 1) d (swapClock c sb) =
          (rest, swapClock c s2) := by
        rw [(ih (i + 1) d hd c sb).1, h4]
      have e4 : s2.cidx = sb.cidx := by
        have := (ih (i + 1) d hd c sb).2
        rw [h4] at this
        exact this
      constructor
      · simp only [genObjectFields, h1, h1sw, if_pos hb1, h2, h2sw, h3, h3sw,
          h4, h4sw]
      · simp only [genObjectFields, h1, if_pos hb1, h2, h3, h4]
        omega
    · by_cases hb2 : ft = "integer"
      · rcases h2 : generate_integer (-1000000) 1000000 s1 with ⟨v, sa⟩
        have h2sw : generate_integer (-1000000) 1000000 (swapClock c s1) =
            (v, swapClock c sa) := by
          rw [(generate_integer_swapc (-1000000) 1000000 c s1).1, h2]
        have e2 : sa.cidx = s1.cidx := by
          have := (generate_integer_swapc (-1000000) 1000000 c s1).2
          rw [h2] at this
          exact this
        rcases h4 : genObjectFields m (i + 1) d sa with ⟨rest, s2⟩
        have h4sw : genObjectFields m (i + 1) d (swapClock c sa) =
            (rest, swapClock c s2) := by
          rw [(ih (i + 1) d hd c sa).1, h4]
        have e4 : s2.cidx = sa.cidx := by
          have := (ih (i + 1) d hd c sa).2
          rw [h4] at this
          exact this
        constructor
        · simp only [genObjectFields, h1, h1sw, if_neg hb1, if_pos hb2, h2,
            h2sw, h4, h4sw]
        · simp only [genObjectFields, h1, if_neg hb1, if_pos hb2, h2, h4]
          omega
      · by_cases hb3 : ft = "float"
        · rcases h2 : generate_float (-1000000) 1000000 s1 with ⟨v, sa⟩
          have h2sw : generate_float (-1000000) 1000000 (swapClock c s1) =
              (v, swapClock c sa) := by
            rw [(generate_float_swapc (-1000000) 1000000 c s1).1, h2]
          have e2 : sa.cidx = s1.cidx := by
            have := (generate_float_swapc (-1000000) 1000000 c s1).2
            rw [h2] at this
            exact this
          rcases h4 : genObjectFields m (i + 1) d sa with ⟨rest, s2⟩
          have h4sw : genObjectFields m (i + 1) d (swapClock c sa) =
              (rest, swapClock c s2) := by
            rw [(ih (i + 1) d hd c sa).1, h4]
          have e4 : s2.cidx = sa.cidx := by
            have := (ih (i + 1) d hd c sa).2
            rw [h4] at this
            exact this
          constructor
          · simp only [genObjectFields, h1, h1sw, if_neg hb1, if_neg hb2,
              if_pos hb3, h2, h2sw, h4, h4sw]
          · simp only [genObjectFields, h1, if_neg hb1, if_neg hb2,
              if_pos hb3, h2, h4]
            omega
        · by_cases hb4 : ft = "boolean"
          · rcases h2 : generate_boolean s1 with ⟨v, sa⟩
            have h2sw : generate_boolean (swapClock c s1) =
                (v, swapClock c sa) := by
              rw [(generate_boolean_swapc c s1).1, h2]
            have e2 : sa.cidx = s1.cidx := by
              have := (generate_boolean_swapc c s1).2
              rw [h2] at this
              exact this
            rcases h4 : genObjectFields m (i + 1) d sa with ⟨rest, s2⟩
            have h4sw : genObjectFields m (i + 1) d (swapClock c sa) =
                (rest, swapClock c s2) := by
              rw [(ih (i + 1) d hd c sa).1, h4]
            have e4 : s2.cidx = sa.cidx := by
              have := (ih (i + 1) d hd c sa).2
              rw [h4] at this
              exact this
            constructor
            · simp only [genObjectFields, h1, h1sw, if_neg hb1, if_neg hb2,
                if_neg hb3, if_pos hb4, h2, h2sw, h4, h4sw]
            · simp only [genObjectFields, h1, if_neg hb1, if_neg hb2,
                if_neg hb3, if_pos hb4, h2, h4]
              omega
          · by_cases hb5 : ft = "null"
            · rcases h4 : genObjectFields m (i + 1) d s1 with ⟨rest, s2⟩
              have h4sw : genObjectFields m (i + 1) d (swapClock c s1) =
                  (rest, swapClock c s2) := by
                rw [(ih (i + 1) d hd c s1).1, h4]
              have e4 : s2.cidx = s1.cidx := by
                have := (ih (i + 1) d hd c s1).2
                rw [h4] at this
                exact this
              constructor
              · simp only [genObjectFields, h1, h1sw, if_neg hb1, if_neg hb2,
                  if_neg hb3, if_neg hb4, if_pos hb5, h4, h4sw]
              · simp only [genObjectFields, h1, if_neg hb1, if_neg hb2,
                  if_neg hb3, if_neg hb4, if_pos hb5, h4]
                omega
            · by_cases hb6 : ft = "object" ∧ 1 < d
              · rcases h2 : generate_object (d - 1) s1 with ⟨v, sa⟩
                have hdn : (d - 1).toNat ≤ n := by omega
                have h2sw : generate_object (d - 1) (swapClock c s1) =
                    (v, swapClock c sa) := by
                  rw [(ihgen (d - 1) hdn c s1).1, h2]
                have e2 : sa.cidx = s1.cidx := by
                  have := (ihgen (d - 1) hdn c s1).2
                  rw [h2] at this
                  exact this
                rcases h4 : genObjectFields m (i + 1) d sa with ⟨rest, s2⟩
                have h4sw : genObjectFields m (i + 1) d (swapClock c sa) =
                    (rest, swapClock c s2) := by
                  rw [(ih (i + 1) d hd c sa).1, h4]
                have e4 : s2.cidx = sa.cidx := by
                  have := (ih (i + 1) d hd c sa).2
                  rw [h4] at this
                  exact this
                constructor
                · simp only [genObjectFields, h1, h1sw, if_neg hb1, if_neg hb2,
                    if_neg hb3, if_neg hb4, if_neg hb5, dif_pos hb6, h2, h2sw,
                    h4, h4sw]
                · simp only [genObjectFields, h1, if_neg hb1, if_neg hb2,
                    if_neg hb3, if_neg hb4, if_neg hb5, dif_pos hb6, h2, h4]
                  omega
              · by_cases hb7 : ft = "array"
                · rcases h2 : choice ARRAY_SIZES s1 with ⟨sz, sa⟩
                  have h2sw : choice ARRAY_SIZES (swapClock c s1) =
                      (sz, swapClock c sa) := by
                    rw [(choice_swapc ARRAY_SIZES c s1).1, h2]
                  have e2 : sa.cidx = s1.cidx := by
                    have := (choice_swapc ARRAY_SIZES c s1).2
                    rw [h2] at this
                    exact this
                  rcases h3 : generate_array sz "string" sa with ⟨v, sb⟩
                  have h3sw : generate_array sz "string" (swapClock c sa) =
                      (v, swapClock c sb) := by
                    rw [(generate_array_string_swapc sz c sa).1, h3]
                  have e3 : sb.cidx = sa.cidx := by
                    have := (generate_array_string_swapc sz c sa).2
                    rw [h3] at this
                    exact this
                  rcases h4 : genObjectFields m (i + 1) d sb with ⟨rest, s2⟩
                  have h4sw : genObjectFields m (i + 1) d (swapClock c sb) =
                      (rest, swapClock c s2) := by
                    rw [(ih (i + 1) d hd c sb).1, h4]
                  have e4 : s2.cidx = sb.cidx := by
                    have := (ih (i + 1) d hd c sb).2
                    rw [h4] at this
                    exact this
                  constructor
                  · simp only [genObjectFields, h1, h1sw, if_neg hb1,
                      if_neg hb2, if_neg hb3, if_neg hb4, if_neg hb5,
                      dif_neg hb6, if_pos hb7, h2, h2sw, h3, h3sw, h4, h4sw]
                  · simp only [genObjectFields, h1, if_neg hb1, if_neg hb2,
                      if_neg hb3, if_neg hb4, if_neg hb5, dif_neg hb6,
                      if_pos hb7, h2, h3, h4]
                    omega
                · rcases h4 : genObjectFields m (i + 1) d s1 with ⟨rest, s2⟩
                  have h4sw : genObjectFields m (i + 1) d (swapClock c s1) =
                      (rest, swapClock c s2) := by
                    rw [(ih (i + 1) d hd c s1).1, h4]
                  have e4 : s2.cidx = s1.cidx := by
                    have := (ih (i + 1) d hd c s1).2
                    rw [h4] at this
                    exact this
                  constructor
                  · simp only [genObjectFields, h1, h1sw, if_neg hb1,
                      if_neg hb2, if_neg hb3, if_neg hb4, if_neg hb5,
                      dif_neg hb6, if_neg hb7, h4, h4sw]
                  · simp only [genObjectFields, h1, if_neg hb1, if_neg hb2,
                      if_neg hb3, if_neg hb4, if_neg hb5, dif_neg hb6,
                      if_neg hb7, h4]
                    omega

theorem generate_object_swapc_aux :
    ∀ (n : Nat) (d : Int), d.toNat ≤ n → SwapC (generate_object d) := by
  intro n
  induction n with
  | zero =>
    intro d hd c s
    have hle : d ≤ 0 := by omega
    constructor
    · simp only [generate_object, if_pos hle]
    · simp only [generate_object, if_pos hle]
  | succ m ih =>
    intro d hd c s
    by_cases hle : d ≤ 0
    · constructor
      · simp only [generate_object, if_pos hle]
      · simp only [generate_object, if_pos hle]
    · rcases h1 : randint 1 10 s with ⟨fc, s1⟩
      have h1sw : randint 1 10 (swapClock c s) = (fc, swapClock c s1) := by
        rw [(randint_swapc 1 10 c s).1, h1]
      have e1 : s1.cidx = s.cidx := by
        have := (randint_swapc 1 10 c s).2
        rw [h1] at this
        exact this
      have hgf := genObjectFields_swapc m (fun d2 h2 => ih d2 h2)
        fc.toNat 0 d (by omega)
      rcases h2 : genObjectFields fc.toNat 0 d s1 with ⟨v, s2⟩
      have h2sw : genObjectFields fc.toNat 0 d (swapClock c s1) =
          (v, swapClock c s2) := by
        rw [(hgf c s1).1, h2]
      have e2 : s2.cidx = s1.cidx := by
        have := (hgf c s1).2
        rw [h2] at this
        exact this
      constructor
      · simp only [generate_object, if_neg hle, h1, h1sw, h2, h2sw]
      · simp only [generate_object, if_neg hle, h1, h2]
        omega

theorem generate_object_swapc (d : Int) : SwapC (generate_object d) :=
  generate_object_swapc_aux d.toNat d le_rfl

theorem genArrayElems_swapc :
    ∀ (n : Nat) (ft : String), SwapC (genArrayElems n ft) := by
  intro n
  induction n with
  | zero =>
    intro ft c s
    constructor
    · simp only [genArrayElems]
    · simp only [genArrayElems]
  | succ m ih =>
    intro ft c s
    by_cases hb1 : ft = "string"
    · rcases h1 : choice STRING_LENGTHS s with ⟨len, sa⟩
      have h1sw : choice STRING_LENGTHS (swapClock c s) =
          (len, swapClock c sa) := by
        rw [(choice_swapc STRING_LENGTHS c s).1, h1]
      have e1 : sa.cidx = s.cidx := by
        have := (choice_swapc STRING_LENGTHS c s).2
        rw [h1] at this
        exact this
      rcases h2 : generate_string len sa with ⟨v, sb⟩
      have h2sw : generate_string len (swapClock c sa) = (v, swapClock c sb) := by
        rw [(generate_string_swapc len c sa).1, h2]
      have e2 : sb.cidx = sa.cidx := by
        have := (generate_string_swapc len c sa).2
        rw [h2] at this
        exact this
      rcases h3 : genArrayElems m ft sb with ⟨rest, s2⟩
      have h3sw : genArrayElems m ft (swapClock c sb) =
          (rest, swapClock c s2) := by
        rw [(ih ft c sb).1, h3]
      have e3 : s2.cidx = sb.cidx := by
        have := (ih ft c sb).2
        rw [h3] at this
        exact this
      constructor
      · simp only [genArrayElems, if_pos hb1, h1, h1sw, h2, h2sw, h3, h3sw]
      · simp only [genArrayElems, if_pos hb1, h1, h2, h3]
        omega
    · by_cases hb2 : ft = "integer"
      · rcases h1 : generate_integer (-1000000) 1000000 s with ⟨v, sa⟩
        have h1sw : generate_integer (-1000000) 1000000 (swapClock c s) =
            (v, swapClock c sa) := by
          rw [(generate_integer_swapc (-1000000) 1000000 c s).1, h1]
        have e1 : sa.cidx = s.cidx := by
          have := (generate_integer_swapc (-1000000) 1000000 c s).2
          rw [h1] at this
          exact this
        rcases h3 : genArrayElems m ft sa with ⟨rest, s2⟩
        have h3sw : genArrayElems m ft (swapClock c sa) =
            (rest, swapClock c s2) := by
          rw [(ih ft c sa).1, h3]
        have e3 : s2.cidx = sa.cidx := by
          have := (ih ft c sa).2
          rw [h3] at this
          exact this
        constructor
        · simp only [genArrayElems, if_neg hb1, if_pos hb2, h1, h1sw, h3, h3sw]
        · simp only [genArrayElems, if_neg hb1, if_pos hb2, h1, h3]
          omega
      · by_cases hb3 : ft = "float"
        · rcases h1 : generate_float (-1000000) 1000000 s with ⟨v, sa⟩
          have h1sw : generate_float (-1000000) 1000000 (swapClock c s) =
              (v, swapClock c sa) := by
            rw [(generate_float_swapc (-1000000) 1000000 c s).1, h1]
          have e1 : sa.cidx = s.cidx := by
            have := (generate_float_swapc (-1000000) 1000000 c s).2
            rw [h1] at this
            exact this
          rcases h3 : genArrayElems m ft sa with ⟨rest, s2⟩
          have h3sw : genArrayElems m ft (swapClock c sa) =
              (rest, swapClock c s2) := by
            rw [(ih ft c sa).1, h3]
          have e3 : s2.cidx = sa.cidx := by
            have := (ih ft c sa).2
            rw [h3] at this
            exact this
          constructor
          · simp only [genArrayElems, if_neg hb1, if_neg hb2, if_pos hb3, h1,
              h1sw, h3, h3sw]
          · simp only [genArrayElems, if_neg hb1, if_neg hb2, if_pos hb3,
              h1, h3]
            omega
        · by_cases hb4 : ft = "boolean"
          · rcases h1 : generate_boolean s with ⟨v, sa⟩
            have h1sw : generate_boolean (swapClock c s) =
                (v, swapClock c sa) := by
              rw [(generate_boolean_swapc c s).1, h1]
            have e1 : sa.cidx = s.cidx := by
              have := (generate_boolean_swapc c s).2
              rw [h1] at this
              exact this
            rcases h3 : genArrayElems m ft sa with ⟨rest, s2⟩
            have h3sw : genArrayElems m ft (swapClock c sa) =
                (rest, swapClock c s2) := by
              rw [(ih ft c sa).1, h3]
            have e3 : s2.cidx = sa.cidx := by
              have := (ih ft c sa).2
              rw [h3] at this
              exact this
            constructor
            · simp only [genArrayElems, if_neg hb1, if_neg hb2, if_neg hb3,
                if_pos hb4, h1, h1sw, h3, h3sw]
            · simp only [genArrayElems, if_neg hb1, if_neg hb2, if_neg hb3,
                if_pos hb4, h1, h3]
              omega
          · by_cases hb5 : ft = "null"
            · rcases h3 : genArrayElems m ft s with ⟨rest, s2⟩
              have h3sw : genArrayElems m ft (swapClock c s) =
                  (rest, swapClock c s2) := by
                rw [(ih ft c s).1, h3]
              have e3 : s2.cidx = s.cidx := by
                have := (ih ft c s).2
                rw [h3] at this
                exact this
              constructor
              · simp only [genArrayElems, if_neg hb1, if_neg hb2, if_neg hb3,
                  if_neg hb4, if_pos hb5, h3, h3sw]
              · simp only [genArrayElems, if_neg hb1, if_neg hb2, if_neg hb3,
                  if_neg hb4, if_pos hb5, h3]
                omega
            · by_cases hb6 : ft = "object"
              · rcases h1 : randint 1 5 s with ⟨dv, sa⟩
                have h1sw : randint 1 5 (swapClock c s) =
                    (dv, swapClock c sa) := by
                  rw [(randint_swapc 1 5 c s).1, h1]
                have e1 : sa.cidx = s.cidx := by
                  have := (randint_swapc 1 5 c s).2
                  rw [h1] at this
                  exact this
                rcases h2 : generate_object dv sa with ⟨v, sb⟩
                have h2sw : generate_object dv (swapClock c sa) =
                    (v, swapClock c sb) := by
                  rw [(generate_object_swapc dv c sa).1, h2]
                have e2 : sb.cidx = sa.cidx := by
                  have := (generate_object_swapc dv c sa).2
                  rw [h2] at this
                  exact this
                rcases h3 : genArrayElems m ft sb with ⟨rest, s2⟩
                have h3sw : genArrayElems m ft (swapClock c sb) =
                    (rest, swapClock c s2) := by
                  rw [(ih ft c sb).1, h3]
                have e3 : s2.cidx = sb.cidx := by
                  have := (ih ft c sb).2
                  rw [h3] at this
                  exact this
                constructor
                · simp only [genArrayElems, if_neg hb1, if_neg hb2, if_neg hb3,
                    if_neg hb4, if_neg hb5, dif_pos hb6, h1, h1sw, h2, h2sw,
                    h3, h3sw]
                · simp only [genArrayElems, if_neg hb1, if_neg hb2, if_neg hb3,
                    if_neg hb4, if_neg hb5, dif_pos hb6, h1, h2, h3]
                  omega
              · by_cases hb7 : ft = "array"
                · rcases h1 : randint 1 10 s with ⟨sz, sa⟩
                  have h1sw : randint 1 10 (swapClock c s) =
                      (sz, swapClock c sa) := by
                    rw [(randint_swapc 1 10 c s).1, h1]
                  have e1 : sa.cidx = s.cidx := by
                    have := (randint_swapc 1 10 c s).2
                    rw [h1] at this
                    exact this
                  rcases h2 : generate_array sz "string" sa with ⟨v, sb⟩
                  have h2sw : generate_array sz "string" (swapClock c sa) =
                      (v, swapClock c sb) := by
                    rw [(generate_array_string_swapc sz c sa).1, h2]
                  have e2 : sb.cidx = sa.cidx := by
                    have := (generate_array_string_swapc sz c sa).2
                    rw [h2] at this
                    exact this
                  rcases h3 : genArrayElems m ft sb with ⟨rest, s2⟩
                  have h3sw : genArrayElems m ft (swapClock c sb) =
                      (rest, swapClock c s2) := by
                    rw [(ih ft c sb).1, h3]
                  have e3 : s2.cidx = sb.cidx := by
                    have := (ih ft c sb).2
                    rw [h3] at this
                    exact this
                  constructor
                  · simp only [genArrayElems, if_neg hb1, if_neg hb2,
                      if_neg hb3, if_neg hb4, if_neg hb5, dif_neg hb6,
                      dif_pos hb7, h1, h1sw, h2, h2sw, h3, h3sw]
                  · simp only [genArrayElems, if_neg hb1, if_neg hb2,
                      if_neg hb3, if_neg hb4, if_neg hb5, dif_neg hb6,
                      dif_pos hb7, h1, h2, h3]
                    omega
                · rcases h3 : genArrayElems m ft s with ⟨rest, s2⟩
                  have h3sw : genArrayElems m ft (swapClock c s) =
                      (rest, swapClock c s2) := by
                    rw [(ih ft c s).1, h3]
                  have e3 : s2.cidx = s.cidx := by
                    have := (ih ft c s).2
                    rw [h3] at this
                    exact this
                  constructor
                  · simp only [genArrayElems, if_neg hb1, if_neg hb2,
                      if_neg hb3, if_neg hb4, if_neg hb5, dif_neg hb6,
                      dif_neg hb7, h3, h3sw]
                  · simp only [genArrayElems, if_neg hb1, if_neg hb2,
                      if_neg hb3, if_neg hb4, if_neg hb5, dif_neg hb6,
                      dif_neg hb7, h3]
                    omega

theorem generate_array_swapc (sz : Int) (ft : String) :
    SwapC (generate_array sz ft) := by
  intro c s
  by_cases hz : sz = 0
  · constructor
    · simp only [generate_array, if_pos hz]
    · simp only [generate_array, if_pos hz]
  · constructor
    · simp only [generate_array, if_neg hz]
      exact (genArrayElems_swapc sz.toNat ft c s).1
    · simp only [generate_array, if_neg hz]
      exact (genArrayElems_swapc sz.toNat ft c s).2

theorem genRecordFields_swapc :
    ∀ (fts : List String) (i : Nat), SwapC (genRecordFields fts i) := by
  intro fts
  induction fts with
  | nil =>
    intro i c s
    constructor
    · simp only [genRecordFields]
    · simp only [genRecordFields]
  | cons ft rest ihr =>
    intro i c s
    by_cases hb1 : ft = "string"
    · rcases h1 : choice STRING_LENGTHS s with ⟨len, sa⟩
      have h1sw : choice STRING_LENGTHS (swapClock c s) =
          (len, swapClock c sa) := by
        rw [(choice_swapc STRING_LENGTHS c s).1, h1]
      have e1 : sa.cidx = s.cidx := by
        have := (choice_swapc STRING_LENGTHS c s).2
        rw [h1] at this
        exact this
      rcases h2 : generate_string len sa with ⟨v, sb⟩
      have h2sw : generate_string len (swapClock c sa) = (v, swapClock c sb) := by
        rw [(generate_string_swapc len c sa).1, h2]
      have e2 : sb.cidx = sa.cidx := by
        have := (generate_string_swapc len c sa).2
        rw [h2] at this
        exact this
      rcases h3 : genRecordFields rest (i + 1) sb with ⟨flds, s2⟩
      have h3sw : genRecordFields rest (i + 1) (swapClock c sb) =
          (flds, swapClock c s2) := by
        rw [(ihr (i + 1) c sb).1, h3]
      have e3 : s2.cidx = sb.cidx := by
        have := (ihr (i + 1) c sb).2
        rw [h3] at this
        exact this
      constructor
      · simp only [genRecordFields, if_pos hb1, h1, h1sw, h2, h2sw, h3, h3sw]
      · simp only [genRecordFields, if_pos hb1, h1, h2, h3]
        omega
    · by_cases hb2 : ft = "integer"
      · rcases h1 : generate_integer (-1000000) 1000000 s with ⟨v, sa⟩
        have h1sw : generate_integer (-1000000) 1000000 (swapClock c s) =
            (v, swapClock c sa) := by
          rw [(generate_integer_swapc (-1000000) 1000000 c s).1, h1]
        have e1 : sa.cidx = s.cidx := by
          have := (generate_integer_swapc (-1000000) 1000000 c s).2
          rw [h1] at this
          exact this
        rcases h3 : genRecordFields rest (i + 1) sa with ⟨flds, s2⟩
        have h3sw : genRecordFields rest (i + 1) (swapClock c sa) =
            (flds, swapClock c s2) := by
          rw [(ihr (i + 1) c sa).1, h3]
        have e3 : s2.cidx = sa.cidx := by
          have := (ihr (i + 1) c sa).2
          rw [h3] at this
          exact this
        constructor
        · simp only [genRecordFields, if_neg hb1, if_pos hb2, h1, h1sw,
            h3, h3sw]
        · simp only [genRecordFields, if_neg hb1, if_pos hb2, h1, h3]
          omega
      · by_cases hb3 : ft = "float"
        · rcases h1 : generate_float (-1000000) 1000000 s with ⟨v, sa⟩
          have h1sw : generate_float (-1000000) 1000000 (swapClock c s) =
              (v, swapClock c sa) := by
            rw [(generate_float_swapc (-1000000) 1000000 c s).1, h1]
          have e1 : sa.cidx = s.cidx := by
            have := (generate_float_swapc (-1000000) 1000000 c s).2
            rw [h1] at this
            exact this
          rcases h3 : genRecordFields rest (i + 1) sa with ⟨flds, s2⟩
          have h3sw : genRecordFields rest (i + 1) (swapClock c sa) =
              (flds, swapClock c s2) := by
            rw [(ihr (i + 1) c sa).1, h3]
          have e3 : s2.cidx = sa.cidx := by
            have := (ihr (i + 1) c sa).2
            rw [h3] at this
            exact this
          constructor
          · simp only [genRecordFields, if_neg hb1, if_neg hb2, if_pos hb3,
              h1, h1sw, h3, h3sw]
          · simp only [genRecordFields, if_neg hb1, if_neg hb2, if_pos hb3,
              h1, h3]
            omega
        · by_cases hb4 : ft = "boolean"
          · rcases h1 : generate_boolean s with ⟨v, sa⟩
            have h1sw : generate_boolean (swapClock c s) =
                (v, swapClock c sa) := by
              rw [(generate_boolean_swapc c s).1, h1]
            have e1 : sa.cidx = s.cidx := by
              have := (generate_boolean_swapc c s).2
              rw [h1] at this
              exact this
            rcases h3 : genRecordFields rest (i + 1) sa with ⟨flds, s2⟩
            have h3sw : genRecordFields rest (i + 1) (swapClock c sa) =
                (flds, swapClock c s2) := by
              rw [(ihr (i + 1) c sa).1, h3]
            have e3 : s2.cidx = sa.cidx := by
              have := (ihr (i + 1) c sa).2
              rw [h3] at this
              exact this
            constructor
            · simp only [genRecordFields, if_neg hb1, if_neg hb2, if_neg hb3,
                if_pos hb4, h1, h1sw, h3, h3sw]
            · simp only [genRecordFields, if_neg hb1, if_neg hb2, if_neg hb3,
                if_pos hb4, h1, h3]
              omega
          · by_cases hb5 : ft = "null"
            · rcases h3 : genRecordFields rest (i + 1) s with ⟨flds, s2⟩
              have h3sw : genRecordFields rest (i + 1) (swapClock c s) =
                  (flds, swapClock c s2) := by
                rw [(ihr (i + 1) c s).1, h3]
              have e3 : s2.cidx = s.cidx := by
                have := (ihr (i + 1) c s).2
                rw [h3] at this
                exact this
              constructor
              · simp only [genRecordFields, if_neg hb1, if_neg hb2, if_neg hb3,
                  if_neg hb4, if_pos hb5, h3, h3sw]
              · simp only [genRecordFields, if_neg hb1, if_neg hb2, if_neg hb3,
                  if_neg hb4, if_pos hb5, h3]
                omega
            · by_cases hb6 : ft = "object"
              · rcases h1 : randint 1 3 s with ⟨dv, sa⟩
                have h1sw : randint 1 3 (swapClock c s) =
                    (dv, swapClock c sa) := by
                  rw [(randint_swapc 1 3 c s).1, h1]
                have e1 : sa.cidx = s.cidx := by
                  have := (randint_swapc 1 3 c s).2
                  rw [h1] at this
                  exact this
                rcases h2 : generate_object dv sa with ⟨v, sb⟩
                have h2sw : generate_object dv (swapClock c sa) =
                    (v, swapClock c sb) := by
                  rw [(generate_object_swapc dv c sa).1, h2]
                have e2 : sb.cidx = sa.cidx := by
                  have := (generate_object_swapc dv c sa).2
                  rw [h2] at this
                  exact this
                rcases h3 : genRecordFields rest (i + 1) sb with ⟨flds, s2⟩
                have h3sw : genRecordFields rest (i + 1) (swapClock c sb) =
                    (flds, swapClock c s2) := by
                  rw [(ihr (i + 1) c sb).1, h3]
                have e3 : s2.cidx = sb.cidx := by
                  have := (ihr (i + 1) c sb).2
                  rw [h3] at this
                  exact this
                constructor
                · simp only [genRecordFields, if_neg hb1, if_neg hb2,
                    if_neg hb3, if_neg hb4, if_neg hb5, if_pos hb6, h1, h1sw,
                    h2, h2sw, h3, h3sw]
                · simp only [genRecordFields, if_neg hb1, if_neg hb2,
                    if_neg hb3, if_neg hb4, if_neg hb5, if_pos hb6, h1, h2, h3]
                  omega
              · by_cases hb7 : ft = "array"
                · rcases h1 : choice ARRAY_SIZES s with ⟨sz, sa⟩
                  have h1sw : choice ARRAY_SIZES (swapClock c s) =
                      (sz, swapClock c sa) := by
                    rw [(choice_swapc ARRAY_SIZES c s).1, h1]
                  have e1 : sa.cidx = s.cidx := by
                    have := (choice_swapc ARRAY_SIZES c s).2
                    rw [h1] at this
                    exact this
                  rcases h2 : generate_array sz "string" sa with ⟨v, sb⟩
                  have h2sw : generate_array sz "string" (swapClock c sa) =
                      (v, swapClock c sb) := by
                    rw [(generate_array_string_swapc sz c sa).1, h2]
                  have e2 : sb.cidx = sa.cidx := by
                    have := (generate_array_string_swapc sz c sa).2
                    rw [h2] at this
                    exact this
                  rcases h3 : genRecordFields rest (i + 1) sb with ⟨flds, s2⟩
                  have h3sw : genRecordFields rest (i + 1) (swapClock c sb) =
                      (flds, swapClock c s2) := by
                    rw [(ihr (i + 1) c sb).1, h3]
                  have e3 : s2.cidx = sb.cidx := by
                    have := (ihr (i + 1) c sb).2
                    rw [h3] at this
                    exact this
                  constructor
                  · simp only [genRecordFields, if_neg hb1, if_neg hb2,
                      if_neg hb3, if_neg hb4, if_neg hb5, if_neg hb6,
                      if_pos hb7, h1, h1sw, h2, h2sw, h3, h3sw]
                  · simp only [genRecordFields, if_neg hb1, if_neg hb2,
                      if_neg hb3, if_neg hb4, if_neg hb5, if_neg hb6,
                      if_pos hb7, h1, h2, h3]
                    omega
                · rcases h3 : genRecordFields rest (i + 1) s with ⟨flds, s2⟩
                  have h3sw : genRecordFields rest (i + 1) (swapClock c s) =
                      (flds, swapClock c s2) := by
                    rw [(ihr (i + 1) c s).1, h3]
                  have e3 : s2.cidx = s.cidx := by
                    have := (ihr (i + 1) c s).2
                    rw [h3] at this
                    exact this
                  constructor
                  · simp only [genRecordFields, if_neg hb1, if_neg hb2,
                      if_neg hb3, if_neg hb4, if_neg hb5, if_neg hb6,
                      if_neg hb7, h3, h3sw]
                  · simp only [genRecordFields, if_neg hb1, if_neg hb2,
                      if_neg hb3, if_neg hb4, if_neg hb5, if_neg hb6,
                      if_neg hb7, h3]
                    omega

theorem generate_record_swapc (fts : List String) :
    SwapC (generate_record fts) := by
  intro c s
  constructor
  · simp only [generate_record]
    exact (genRecordFields_swapc fts 0 c s).1
  · simp only [generate_record]
    exact (genRecordFields_swapc fts 0 c s).2

theorem goTimeSeries_swapc :
    ∀ (k : Nat) (t : Int), SwapC (goTimeSeries k t) := by
  intro k
  induction k with
  | zero =>
    intro t c s
    constructor
    · simp only [goTimeSeries]
    · simp only [goTimeSeries]
  | succ m ih =>
    intro t c s
    rcases h1 : generate_float (-1000000) 1000000 s with ⟨v, s1⟩
    have h1sw : generate_float (-1000000) 1000000 (swapClock c s) =
        (v, swapClock c s1) := by
      rw [(generate_float_swapc (-1000000) 1000000 c s).1, h1]
    have e1 : s1.cidx = s.cidx := by
      have := (generate_float_swapc (-1000000) 1000000 c s).2
      rw [h1] at this
      exact this
    rcases h2 : choice [pys "A", pys "B", pys "C", pys "D"] s1 with ⟨cat, s2⟩
    have h2sw : choice [pys "A", pys "B", pys "C", pys "D"] (swapClock c s1) =
        (cat, swapClock c s2) := by
      rw [(choice_swapc [pys "A", pys "B", pys "C", pys "D"] c s1).1, h2]
    have e2 : s2.cidx = s1.cidx := by
      have := (choice_swapc [pys "A", pys "B", pys "C", pys "D"] c s1).2
      rw [h2] at this
      exact this
    rcases h3 : choice [pys "DEBUG", pys "INFO", pys "WARN", pys "ERROR"] s2
      with ⟨lvl, s3⟩
    have h3sw : choice [pys "DEBUG", pys "INFO", pys "WARN", pys "ERROR"]
        (swapClock c s2) = (lvl, swapClock c s3) := by
      rw [(choice_swapc [pys "DEBUG", pys "INFO", pys "WARN", pys "ERROR"]
        c s2).1, h3]
    have e3 : s3.cidx = s2.cidx := by
      have := (choice_swapc [pys "DEBUG", pys "INFO", pys "WARN", pys "ERROR"]
        c s2).2
      rw [h3] at this
      exact this
    rcases h4 : randint 10 100 s3 with ⟨mlen, s4⟩
    have h4sw : randint 10 100 (swapClock c s3) = (mlen, swapClock c s4) := by
      rw [(randint_swapc 10 100 c s3).1, h4]
    have e4 : s4.cidx = s3.cidx := by
      have := (randint_swapc 10 100 c s3).2
      rw [h4] at this
      exact this
    rcases h5 : generate_string mlen s4 with ⟨msg, s5⟩
    have h5sw : generate_string mlen (swapClock c s4) =
        (msg, swapClock c s5) := by
      rw [(generate_string_swapc mlen c s4).1, h5]
    have e5 : s5.cidx = s4.cidx := by
      have := (generate_string_swapc mlen c s4).2
      rw [h5] at this
      exact this
    rcases h6 : randint 1 3600 s5 with ⟨step, s6⟩
    have h6sw : randint 1 3600 (swapClock c s5) = (step, swapClock c s6) := by
      rw [(randint_swapc 1 3600 c s5).1, h6]
    have e6 : s6.cidx = s5.cidx := by
      have := (randint_swapc 1 3600 c s5).2
      rw [h6] at this
      exact this
    rcases h7 : goTimeSeries m (t + step) s6 with ⟨rest, s7⟩
    have h7sw : goTimeSeries m (t + step) (swapClock c s6) =
        (rest, swapClock c s7) := by
      rw [(ih (t + step) c s6).1, h7]
    have e7 : s7.cidx = s6.cidx := by
      have := (ih (t + step) c s6).2
      rw [h7] at this
      exact this
    constructor
    · simp only [goTimeSeries, h1, h1sw, h2, h2sw, h3, h3sw, h4, h4sw, h5,
        h5sw, h6, h6sw, h7, h7sw]
    · simp only [goTimeSeries, h1, h2, h3, h4, h5, h6, h7]
      omega

theorem generate_time_series_swapc (count start_time : Int) :
    SwapC (generate_time_series_data count start_time) := by
  intro c s
  constructor
  · simp only [generate_time_series_data]
    exact (goTimeSeries_swapc count.toNat start_time c s).1
  · simp only [generate_time_series_data]
    exact (goTimeSeries_swapc count.toNat start_time c s).2

theorem generate_edge_case_swapc : SwapC generate_edge_case_data := by
  intro c s
  rcases h1 : generate_string 100000 s with ⟨v1, t1⟩
  have h1sw : generate_string 100000 (swapClock c s) = (v1, swapClock c t1) := by
    rw [(generate_string_swapc 100000 c s).1, h1]
  have h1e : t1.cidx = s.cidx := by
    have := (generate_string_swapc 100000 c s).2
    rw [h1] at this
    exact this
  rcases h2 : generate_string 100000 t1 with ⟨v2, t2⟩
  have h2sw : generate_string 100000 (swapClock c t1) = (v2, swapClock c t2) := by
    rw [(generate_string_swapc 100000 c t1).1, h2]
  have h2e : t2.cidx = t1.cidx := by
    have := (generate_string_swapc 100000 c t1).2
    rw [h2] at this
    exact this
  rcases h3 : generate_string 100000 t2 with ⟨v3, t3⟩
  have h3sw : generate_string 100000 (swapClock c t2) = (v3, swapClock c t3) := by
    rw [(generate_string_swapc 100000 c t2).1, h3]
  have h3e : t3.cidx = t2.cidx := by
    have := (generate_string_swapc 100000 c t2).2
    rw [h3] at this
    exact this
  rcases h4 : generate_unicode_string 100 t3 with ⟨v4, t4⟩
  have h4sw : generate_unicode_string 100 (swapClock c t3) = (v4, swapClock c t4) := by
    rw [(generate_unicode_string_swapc 100 c t3).1, h4]
  have h4e : t4.cidx = t3.cidx := by
    have := (generate_unicode_string_swapc 100 c t3).2
    rw [h4] at this
    exact this
  rcases h5 : generate_unicode_string 100 t4 with ⟨v5, t5⟩
  have h5sw : generate_unicode_string 100 (swapClock c t4) = (v5, swapClock c t5) := by
    rw [(generate_unicode_string_swapc 100 c t4).1, h5]
  have h5e : t5.cidx = t4.cidx := by
    have := (generate_unicode_string_swapc 100 c t4).2
    rw [h5] at this
    exact this
  rcases h6 : generate_unicode_string 100 t5 with ⟨v6, t6⟩
  have h6sw : generate_unicode_string 100 (swapClock c t5) = (v6, swapClock c t6) := by
    rw [(generate_unicode_string_swapc 100 c t5).1, h6]
  have h6e : t6.cidx = t5.cidx := by
    have := (generate_unicode_string_swapc 100 c t5).2
    rw [h6] at this
    exact this
  rcases h7 : generate_object 5 t6 with ⟨v7, t7⟩
  have h7sw : generate_object 5 (swapClock c t6) = (v7, swapClock c t7) := by
    rw [(generate_object_swapc 5 c t6).1, h7]
  have h7e : t7.cidx = t6.cidx := by
    have := (generate_object_swapc 5 c t6).2
    rw [h7] at this
    exact this
  rcases h8 : generate_object 5 t7 with ⟨v8, t8⟩
  have h8sw : generate_object 5 (swapClock c t7) = (v8, swapClock c t8) := by
    rw [(generate_object_swapc 5 c t7).1, h8]
  have h8e : t8.cidx = t7.cidx := by
    have := (generate_object_swapc 5 c t7).2
    rw [h8] at this
    exact this
  rcases h9 : generate_object 5 t8 with ⟨v9, t9⟩
  have h9sw : generate_object 5 (swapClock c t8) = (v9, swapClock c t9) := by
    rw [(generate_object_swapc 5 c t8).1, h9]
  have h9e : t9.cidx = t8.cidx := by
    have := (generate_object_swapc 5 c t8).2
    rw [h9] at this
    exact this
  rcases h10 : generate_array 10000 "string" t9 with ⟨v10, t10⟩
  have h10sw : generate_array 10000 "string" (swapClock c t9) = (v10, swapClock c t10) := by
    rw [(generate_array_swapc 10000 "string" c t9).1, h10]
  have h10e : t10.cidx = t9.cidx := by
    have := (generate_array_swapc 10000 "string" c t9).2
    rw [h10] at this
    exact this
  rcases h11 : generate_array 10000 "integer" t10 with ⟨v11, t11⟩
  have h11sw : generate_array 10000 "integer" (swapClock c t10) = (v11, swapClock c t11) := by
    rw [(generate_array_swapc 10000 "integer" c t10).1, h11]
  have h11e : t11.cidx = t10.cidx := by
    have := (generate_array_swapc 10000 "integer" c t10).2
    rw [h11] at this
    exact this
  rcases h12 : generate_array 10000 "float" t11 with ⟨v12, t12⟩
  have h12sw : generate_array 10000 "float" (swapClock c t11) = (v12, swapClock c t12) := by
    rw [(generate_array_swapc 10000 "float" c t11).1, h12]
  have h12e : t12.cidx = t11.cidx := by
    have := (generate_array_swapc 10000 "float" c t11).2
    rw [h12] at this
    exact this
  constructor
  · simp only [generate_edge_case_data, h1, h2, h3, h4, h5, h6, h7, h8, h9, h10, h11, h12, h1sw, h2sw, h3sw, h4sw, h5sw, h6sw, h7sw, h8sw, h9sw, h10sw, h11sw, h12sw]
  · simp only [generate_edge_case_data, h1, h2, h3, h4, h5, h6, h7, h8, h9, h10, h11, h12]
    omega

/-- The record loop of the integration category in main():
[generator.generate_record(field_types) for _ in range(count)]. -/
def genRecords : Nat → List String → PyState → List Record × PyState
  | 0, _, s => ([], s)
  | n + 1, fts, s =>
    let (x, s1) := generate_record fts s
    let (rest, s2) := genRecords n fts s1
    (x :: rest, s2)

theorem genRecords_swapc :
    ∀ (n : Nat) (fts : List String), SwapC (genRecords n fts) := by
  intro n
  induction n with
  | zero =>
    intro fts c s
    constructor
    · simp only [genRecords]
    · simp only [genRecords]
  | succ m ih =>
    intro fts c s
    rcases h1 : generate_record fts s with ⟨x, s1⟩
    have h1sw : generate_record fts (swapClock c s) = (x, swapClock c s1) := by
      rw [(generate_record_swapc fts c s).1, h1]
    have e1 : s1.cidx = s.cidx := by
      have := (generate_record_swapc fts c s).2
      rw [h1] at this
      exact this
    rcases h2 : genRecords m fts s1 with ⟨rest, s2⟩
    have h2sw : genRecords m fts (swapClock c s1) = (rest, swapClock c s2) := by
      rw [(ih fts c s1).1, h2]
    have e2 : s2.cidx = s1.cidx := by
      have := (ih fts c s1).2
      rw [h2] at this
      exact this
    constructor
    · simp only [genRecords, h1, h1sw, h2, h2sw]
    · simp only [genRecords, h1, h2]
      omega

theorem goCompression_clock (c2 : Nat → Int) :
    ∀ (k i : Nat) (bs : PyStr) (bo : Record) (s : PyState),
      (∀ j < k, s.clock (s.cidx + j) = c2 (s.cidx + j)) →
      (goCompression k i bs bo (swapClock c2 s)).1 =
        (goCompression k i bs bo s).1 := by
  intro k
  induction k with
  | zero => intro i bs bo s hagree; rfl
  | succ m ih =>
    intro i bs bo s hagree
    rcases h1 : generate_string 10 s with ⟨vf, s1⟩
    have h1sw : generate_string 10 (swapClock c2 s) = (vf, swapClock c2 s1) := by
      rw [(generate_string_swapc 10 c2 s).1, h1]
    have e1 : s1.cidx = s.cidx := by
      have := (generate_string_swapc 10 c2 s).2
      rw [h1] at this
      exact this
    have ec1 : s1.clock = s.clock := by
      have := swapc_clock (generate_string_swapc 10) s
      rw [h1] at this
      exact this
    rcases h2 : now s1 with ⟨t, s2⟩
    have ht : t = s1.clock s1.cidx := (congrArg Prod.fst h2).symm
    have hts : c2 s1.cidx = s1.clock s1.cidx := by
      have h0 := hagree 0 (by omega)
      rw [ec1, e1]
      simpa using h0.symm
    have h2sw : now (swapClock c2 s1) = (t, swapClock c2 s2) := by
      have hx : now (swapClock c2 s1) = (c2 s1.cidx, swapClock c2 (now s1).2) :=
        now_swap c2 s1
      rw [h2] at hx
      rw [hts, ← ht] at hx
      exact hx
    have e2 : s2.cidx = s1.cidx + 1 := by
      have := congrArg (fun p : Int × PyState => p.2.cidx) h2
      simpa [now] using this.symm
    have ec2 : s2.clock = s1.clock := by
      have := congrArg (fun p : Int × PyState => p.2.clock) h2
      simpa [now] using this.symm
    have hagree2 : ∀ j < m, s2.clock (s2.cidx + j) = c2 (s2.cidx + j) := by
      intro j hj
      have hstep := hagree (j + 1) (by omega)
      rw [ec2, ec1, e2, e1]
      rw [show s.cidx + 1 + j = s.cidx + (j + 1) by omega]
      exact hstep
    rcases h3 : goCompression m (i + 1) bs bo s2 with ⟨rest, s3⟩
    rcases h3sw : goCompression m (i + 1) bs bo (swapClock c2 s2)
      with ⟨rest2, s3sw⟩
    have hrec := ih (i + 1) bs bo s2 hagree2
    simp only [h3, h3sw] at hrec
    simp only [goCompression, h1, h1sw, h2, h2sw, h3, h3sw]
    rw [hrec]

theorem generate_compression_clock (count : Int) (c2 : Nat → Int)
    (s : PyState)
    (hagree : ∀ j < count.toNat, s.clock (s.cidx + j) = c2 (s.cidx + j)) :
    (generate_compression_test_data count (swapClock c2 s)).1 =
      (generate_compression_test_data count s).1 := by
  rcases h1 : generate_string 1000 s with ⟨bs, s1⟩
  have h1sw : generate_string 1000 (swapClock c2 s) = (bs, swapClock c2 s1) := by
    rw [(generate_string_swapc 1000 c2 s).1, h1]
  have e1 : s1.cidx = s.cidx := by
    have := (generate_string_swapc 1000 c2 s).2
    rw [h1] at this
    exact this
  have ec1 : s1.clock = s.clock := by
    have := swapc_clock (generate_string_swapc 1000) s
    rw [h1] at this
    exact this
  rcases h2 : generate_object 2 s1 with ⟨bo, s2⟩
  have h2sw : generate_object 2 (swapClock c2 s1) = (bo, swapClock c2 s2) := by
    rw [(generate_object_swapc 2 c2 s1).1, h2]
  have e2 : s2.cidx = s1.cidx := by
    have := (generate_object_swapc 2 c2 s1).2
    rw [h2] at this
    exact this
  have ec2 : s2.clock = s1.clock := by
    have := swapc_clock (generate_object_swapc 2) s1
    rw [h2] at this
    exact this
  have hagree2 : ∀ j < count.toNat, s2.clock (s2.cidx + j) = c2 (s2.cidx + j) := by
    intro j hj
    rw [ec2, ec1, e2, e1]
    exact hagree j hj
  have hmain := goCompression_clock c2 count.toNat 0 bs bo s2 hagree2
  simp only [generate_compression_test_data, h1, h1sw, h2, h2sw]
  exact hmain

theorem swapc_fst {f : PyState → α × PyState} (hf : SwapC f) (c2 : Nat → Int)
    (s : PyState) : (f s).1 = (f (swapClock c2 s)).1 := by
  rw [(hf c2 s).1]

/-- The Dataset main() builds for each requested category
(generate_test_data.py, main): unit → edge cases; integration (or any
unrecognized category) → count records from generate_record; performance →
log data; stress → compression data; conformance → time series starting at
datetime.now(). -/
def generate_dataset (category : String) (count : Int)
    (field_types : List String) (s : PyState) : List Record × PyState :=
  if category = "unit" then generate_edge_case_data s
  else if category = "integration" then genRecords count.toNat field_types s
  else if category = "performance" then generate_log_data count s
  else if category = "stress" then generate_compression_test_data count s
  else if category = "conformance" then
    let (t, s1) := now s
    generate_time_series_data count t s1
  else genRecords count.toNat field_types s

/-- C1 (amended): for every parameter set (category, count, field types) and
every seed stream, two generation runs with identical seed stream that also
observe identical wall-clock readings (the runs consume at most count + 1
readings) produce byte-identical Datasets and identical content hashes.  The
counterexample shows the clock condition is necessary: log records embed
datetime.now(), so seed and parameters alone do not determine the Dataset. -/
theorem dataset_generation_deterministic
    (category : String) (count : Int) (field_types : List String)
    (r : Nat → Nat) (ri : Nat) (c1 c2 : Nat → Int) (ci : Nat)
    (h : ∀ i < count.toNat + 1, c1 (ci + i) = c2 (ci + i)) :
    (generate_dataset category count field_types ⟨r, ri, c1, ci⟩).1 =
      (generate_dataset category count field_types ⟨r, ri, c2, ci⟩).1 ∧
    dataHash
        (generate_dataset category count field_types ⟨r, ri, c1, ci⟩).1 =
      dataHash
        (generate_dataset category count field_types ⟨r, ri, c2, ci⟩).1 := by
  have hdata :
      (generate_dataset category count field_types ⟨r, ri, c1, ci⟩).1 =
        (generate_dataset category count field_types ⟨r, ri, c2, ci⟩).1 := by
    by_cases hu : category = "unit"
    · simp only [generate_dataset, if_pos hu]
      exact swapc_fst generate_edge_case_swapc c2 ⟨r, ri, c1, ci⟩
    · by_cases hi : category = "integration"
      · simp only [generate_dataset, if_neg hu, if_pos hi]
        exact swapc_fst (genRecords_swapc count.toNat field_types) c2
          ⟨r, ri, c1, ci⟩
      · by_cases hp : category = "performance"
        · simp only [generate_dataset, if_neg hu, if_neg hi, if_pos hp,
            generate_log_data]
          exact goLog_clock r c1 c2 count.toNat ri ci
            (fun i hik => h i (by omega))
        · by_cases hs : category = "stress"
          · simp only [generate_dataset, if_neg hu, if_neg hi, if_neg hp,
              if_pos hs]
            exact (generate_compression_clock count c2 ⟨r, ri, c1, ci⟩
              (fun j hj => h j (by omega))).symm
          · by_cases hc : category = "conformance"
            · simp only [generate_dataset, if_neg hu, if_neg hi, if_neg hp,
                if_neg hs, if_pos hc, now_state]
              have ht : c1 ci = c2 ci := by
                have := h 0 (by omega)
                simpa using this
              rw [← ht]
              exact swapc_fst (generate_time_series_swapc count (c1 ci)) c2
                ⟨r, ri, c1, ci + 1⟩
            · simp only [generate_dataset, if_neg hu, if_neg hi, if_neg hp,
                if_neg hs, if_neg hc]
              exact swapc_fst (genRecords_swapc count.toNat field_types) c2
                ⟨r, ri, c1, ci⟩
  exact ⟨hdata, congrArg dataHash hdata⟩

/-- Witness for C1 (amended): a one-record performance (log) dataset, with
two distinct clocks that agree on the readings the run consumes. -/
theorem dataset_generation_deterministic_witness :
    (∀ i < (1 : Int).toNat + 1, (fun _ : Nat => (7 : Int)) (0 + i) =
      (fun j : Nat => if j < 2 then (7 : Int) else 99) (0 + i)) ∧
    (generate_dataset "performance" 1 [] ⟨fun _ => 0, 0, fun _ => 7, 0⟩).1 =
      (generate_dataset "performance" 1 []
        ⟨fun _ => 0, 0, fun j => if j < 2 then 7 else 99, 0⟩).1 := by
  have hagree : ∀ i < (1 : Int).toNat + 1, (fun _ : Nat => (7 : Int)) (0 + i) =
      (fun j : Nat => if j < 2 then (7 : Int) else 99) (0 + i) := by
    intro i hi
    have h2 : i < 2 := by omega
    simp [h2]
  exact ⟨hagree, (dataset_generation_deterministic "performance" 1 []
    (fun _ => 0) 0 (fun _ => 7) (fun j => if j < 2 then 7 else 99) 0
    hagree).1⟩
